import Mathlib

/-!
Shallow embedding of the backend aggregation engine of the ethaccrualasset
website repository: the Express price-poller server (unnamed backend source,
third revision). JavaScript numbers are modelled as exact rationals, null
and undefined as Option, epoch-millisecond timestamps as integers. Each
definition is translated from the corresponding source function and keeps
its name.
-/

/-- ETH_BLOCK_TIME_SEC is 12 and BLOCKS_PER_YEAR is
Math.round(365 * 24 * 60 * 60 / 12), which is exactly 2628000. -/
def BLOCKS_PER_YEAR : ℕ := 2628000

/-- PRICE_HISTORY_WINDOW_MS, thirty days in milliseconds. -/
def PRICE_HISTORY_WINDOW_MS : ℤ := 30 * 24 * 60 * 60 * 1000

/-- Milliseconds in one day, the msPerDay constant of the source. -/
def msPerDay : ℤ := 24 * 60 * 60 * 1000

/-- Number(ethers.utils.formatUnits(x, decimals)) for a nonnegative integer
x: the exact rational x / 10 ^ decimals. -/
def formatUnits (raw : ℕ) (decimals : ℕ) : ℚ := (raw : ℚ) / 10 ^ decimals

/-- Result shape of normalizeNetworkFeeDecimal. In the source perBlockSsv
and perYearSsv are always finite numbers on the integer path modelled here,
so they are some of a rational. -/
structure FeeDecodeResult where
  percentDecimal : Option ℚ
  scale : Option String
  perBlockSsv : Option ℚ
  perYearSsv : Option ℚ
deriving Repr, DecidableEq

/-- The ordered fixed-point candidate list built inside
normalizeNetworkFeeDecimal: formatUnits at 18, 8, 6 and 4 decimals, then the
raw integer itself. -/
def feeCandidates (raw : ℕ) : List (String × ℚ) :=
  [("18-decimals", formatUnits raw 18),
   ("8-decimals", formatUnits raw 8),
   ("6-decimals", formatUnits raw 6),
   ("4-decimals", formatUnits raw 4),
   ("raw", (raw : ℚ))]

/-- Translation of normalizeNetworkFeeDecimal for an integer raw fee value
(the BigNumber argument of the source is a nonnegative 256-bit integer).
The nested source conditionals rawNumber > 0, rawNumber <= 10_000_000 with
bpsDecimal in (0,1), and rawNumber <= 100 are flattened into the two guards
below, which is equivalent. The two for loops over the candidate list are
the two find? calls. -/
def normalizeNetworkFeeDecimal (raw : ℕ) : FeeDecodeResult :=
  let perBlockSsv : ℚ := formatUnits raw 18
  let perYearSsv : ℚ := perBlockSsv * (BLOCKS_PER_YEAR : ℚ)
  let bpsDecimal : ℚ := (raw : ℚ) / 10000
  if 0 < raw ∧ raw ≤ 10000000 ∧ 0 < bpsDecimal ∧ bpsDecimal < 1 then
    { percentDecimal := some bpsDecimal, scale := some "basis-points",
      perBlockSsv := some perBlockSsv, perYearSsv := some perYearSsv }
  else if 0 < raw ∧ raw ≤ 100 then
    { percentDecimal := some ((raw : ℚ) / 100), scale := some "percent-integer",
      perBlockSsv := some perBlockSsv, perYearSsv := some perYearSsv }
  else
    match (feeCandidates raw).find? (fun c => decide (0 < c.2 ∧ c.2 < 1)) with
    | some c =>
      { percentDecimal := some c.2, scale := some c.1,
        perBlockSsv := some perBlockSsv, perYearSsv := some perYearSsv }
    | none =>
      match (feeCandidates raw).find? (fun c => decide (1 ≤ c.2 ∧ c.2 ≤ 100)) with
      | some c =>
        { percentDecimal := some (c.2 / 100), scale := some (c.1 ++ "-percent"),
          perBlockSsv := some perBlockSsv, perYearSsv := some perYearSsv }
      | none =>
        { percentDecimal := none, scale := none,
          perBlockSsv := some perBlockSsv, perYearSsv := some perYearSsv }

/-- Translation of normalizePercentDecimal. The argument is none when the
configured value is not a finite number. -/
def normalizePercentDecimal (rawPercent : Option ℚ) : Option ℚ :=
  match rawPercent with
  | none => none
  | some p => if p ≤ 0 then none else if 1 < p then some (p / 100) else some p

/-- One stored price-history entry: an epoch-millisecond timestamp and a
price in USD. -/
structure HistoryPoint where
  timestamp : ℤ
  priceUsd : ℚ
deriving Repr, DecidableEq

/-- Translation of the per-symbol body of addPriceHistory: when the quoted
price is a finite number greater than zero, push an entry stamped now, then
keep only the entries with timestamp at least now minus
PRICE_HISTORY_WINDOW_MS. The priceUsd argument is none when the quote is
absent or not a finite number. -/
def addPriceHistoryFor (now : ℤ) (priceUsd : Option ℚ) (hist : List HistoryPoint) :
    List HistoryPoint :=
  let cutoff := now - PRICE_HISTORY_WINDOW_MS
  let pushed :=
    match priceUsd with
    | some p =>
      if 0 < p then hist ++ [({ timestamp := now, priceUsd := p } : HistoryPoint)]
      else hist
    | none => hist
  pushed.filter (fun e => decide (cutoff ≤ e.timestamp))

/-- One quote of the bulk OHLCV response, reduced to the fields the seeder
reads: the USD close (none unless a finite number) and the parsed close
timestamp (none when missing or not parseable to a finite time). -/
structure OhlcvQuote where
  close : Option ℚ
  timeCloseMs : Option ℤ
deriving Repr, DecidableEq

/-- Translation of one symbol iteration of the seeding loop after a
non-empty quotes array was obtained: push every quote whose close is a
finite number greater than zero and whose close time parses, then filter
(the source predicate only drops entries without a finite timestamp, which
cannot occur here, so the filter keeps everything) and sort by timestamp.
Also returns whether any entry was pushed (the addedAny contribution). -/
def seedSymbolStep (hist : List HistoryPoint) (quotes : List OhlcvQuote) :
    List HistoryPoint × Bool :=
  let step := fun (acc : List HistoryPoint × Bool) (q : OhlcvQuote) =>
    match q.close, q.timeCloseMs with
    | some close, some ts =>
      if 0 < close then
        (acc.1 ++ [({ timestamp := ts, priceUsd := close } : HistoryPoint)], true)
      else acc
    | _, _ => acc
  let appended := quotes.foldl step (hist, false)
  ((appended.1.filter (fun _ => true)).mergeSort (fun a b => a.timestamp ≤ b.timestamp),
   appended.2)

/-- The thirty synthetic entries pushed by backfillWithCurrentPrices for one
symbol: the loop counts i from 29 down to 0 pushing timestamp now minus
i days, all at the same price. -/
def backfillEntries (now : ℤ) (priceUsd : ℚ) : List HistoryPoint :=
  (List.range 30).map
    (fun (k : ℕ) => { timestamp := now - (29 - (k : ℤ)) * msPerDay, priceUsd := priceUsd })

/-- One asset entry as built by the reduce inside fetchLatestPrices. -/
structure PriceQuote where
  symbol : String
  id : Option ℕ
  priceUsd : Option ℚ
  totalSupply : Option ℚ
  circulatingSupply : Option ℚ
  maxSupply : Option ℚ
  sourceLastUpdated : Option String
deriving Repr, DecidableEq

/-- The cached prices object: one PriceQuote per configured symbol, keyed by
symbol. -/
def PricesMap := List (String × PriceQuote)
deriving instance Repr, DecidableEq for PricesMap

/-- Lookup of prices[symbol] on the cached prices object. -/
def PricesMap.lookup (m : PricesMap) (symbol : String) : Option PriceQuote :=
  (List.lookup symbol m)

/-- The staking APR sample stored by fetchEthStakingApr; value stays none
when no recognized numeric field was present. -/
structure StakingAprSample where
  value : Option ℚ
  sourceField : Option String
deriving Repr, DecidableEq

/-- The staked ETH sample stored by fetchTotalStakedEth; value stays none
when the payload was not numeric. -/
structure StakedEthSample where
  value : Option ℚ
  sourceUnit : String
deriving Repr, DecidableEq

/-- The network fee sample stored by fetchNetworkFee. -/
structure NetworkFeeSample where
  percentDecimal : Option ℚ
  raw : ℕ
  decodedScale : Option String
  blockNumber : Option ℕ
  perBlockSsv : Option ℚ
  perYearSsv : Option ℚ
deriving Repr, DecidableEq

/-- One entry of dataState.lastFetchError: an error code, a message and the
timestamp it was recorded at. -/
structure FetchErr where
  code : String
  message : String
  timestamp : ℤ
deriving Repr, DecidableEq

/-- The four per-source slots of dataState.lastFetchError. -/
structure LastFetchError where
  prices : Option FetchErr
  stakingApr : Option FetchErr
  stakedEth : Option FetchErr
  networkFee : Option FetchErr
deriving Repr, DecidableEq

/-- The result of the projection computation stored in
dataState.nextMonthFeeProjection (the two window records of the source are
derivable from the fields kept here and are omitted). -/
structure FeeProjection where
  perYearSsv : ℚ
  avgEthPrice : ℚ
  avgSsvPrice : ℚ
  stakingApr : ℚ
  networkFeePercent : ℚ
  computedAt : ℤ
deriving Repr, DecidableEq

/-- The mutable dataState of the server, together with the module-level
hasSeededHistory flag. -/
structure ServerState where
  prices : Option PricesMap
  stakingApr : Option StakingAprSample
  stakedEth : Option StakedEthSample
  networkFee : Option NetworkFeeSample
  lastUpdated : Option ℤ
  lastCmcTimestamp : Option ℤ
  ethHistory : List HistoryPoint
  ssvHistory : List HistoryPoint
  nextMonthFeeProjection : Option FeeProjection
  lastFetchError : LastFetchError
  hasSeededHistory : Bool
deriving Repr, DecidableEq

/-- dataState as initialized at module load. -/
def initialState : ServerState :=
  { prices := none, stakingApr := none, stakedEth := none, networkFee := none,
    lastUpdated := none, lastCmcTimestamp := none,
    ethHistory := [], ssvHistory := [], nextMonthFeeProjection := none,
    lastFetchError :=
      { prices := none, stakingApr := none, stakedEth := none, networkFee := none },
    hasSeededHistory := false }

/-- The deduplicated permanent-error write shared by the missing-key and
missing-provider branches: the slot is rewritten unless it already holds an
entry with the same code (the source guard that avoids re-logging every
cycle). -/
def dedupSetErr (existing : Option FetchErr) (code message : String) (now : ℤ) :
    Option FetchErr :=
  match existing with
  | some e =>
    if e.code == code then existing
    else some { code := code, message := message, timestamp := now }
  | none => some { code := code, message := message, timestamp := now }

/-- Outcome of one outbound HTTP or RPC call: the parsed payload, or the
caught error message. -/
inductive HttpOutcome (α : Type) where
  | ok (payload : α)
  | fail (message : String)
deriving Repr, DecidableEq

/-- The USD quote object of one asset of the CMC quotes response; close is
none unless a finite number, price none unless a number. -/
structure CmcUsdQuote where
  close : Option ℚ
  price : Option ℚ
  last_updated : Option String
deriving Repr, DecidableEq

/-- One asset of the CMC quotes response. -/
structure CmcAsset where
  id : Option ℕ
  usd : Option CmcUsdQuote
  total_supply : Option ℚ
  circulating_supply : Option ℚ
  max_supply : Option ℚ
deriving Repr, DecidableEq

/-- The CMC quotes response: the data object keyed by symbol and the status
timestamp. -/
structure CmcResponse where
  payload : List (String × CmcAsset)
  statusTimestamp : Option ℤ
deriving Repr, DecidableEq

/-- The body of the reduce inside fetchLatestPrices for one symbol: prefer
the settled close over the live price. -/
def buildPriceQuote (symbol : String) (asset : Option CmcAsset) : PriceQuote :=
  let usdQuote := asset.bind (·.usd)
  let closePrice := usdQuote.bind (·.close)
  { symbol := symbol,
    id := asset.bind (·.id),
    priceUsd :=
      match closePrice with
      | some c => some c
      | none => usdQuote.bind (·.price),
    totalSupply := asset.bind (·.total_supply),
    circulatingSupply := asset.bind (·.circulating_supply),
    maxSupply := asset.bind (·.max_supply),
    sourceLastUpdated := usdQuote.bind (·.last_updated) }

/-- The configured symbol list, DEFAULT_SYMBOLS. -/
def symbols : List String := ["ETH", "SSV"]

/-- Lookup of the priceUsd a freshly built prices object holds for a
symbol. -/
def priceUsdOf (m : PricesMap) (symbol : String) : Option ℚ :=
  (m.lookup symbol).bind (·.priceUsd)

/-- Translation of fetchLatestPrices. Returns the updated state and the
boolean result. The updatedAt timestamps and the assetIds map of dataState
are omitted throughout: no served field or modelled branch reads them. On a
missing key the error slot is rewritten only when it does not already hold
a MISSING_API_KEY entry; on success the quotes map is rebuilt, the error
slot cleared and addPriceHistory run for both symbols; on failure only the
error slot is written. -/
def fetchLatestPrices (cmcKeyConfigured : Bool) (resp : HttpOutcome CmcResponse)
    (now : ℤ) (s : ServerState) : ServerState × Bool :=
  if ¬ cmcKeyConfigured then
    ({ s with lastFetchError :=
        { s.lastFetchError with prices :=
            (dedupSetErr s.lastFetchError.prices "MISSING_API_KEY"
              "CoinMarketCap API key is not configured." now) } }, false)
  else
    match resp with
    | .ok body =>
      let prices : PricesMap :=
        symbols.map (fun sym => (sym, buildPriceQuote sym (List.lookup sym body.payload)))
      ({ s with
          lastCmcTimestamp :=
            match body.statusTimestamp with
            | some t => some t
            | none => s.lastCmcTimestamp,
          prices := some prices,
          lastFetchError := { s.lastFetchError with prices := none },
          ethHistory := addPriceHistoryFor now (priceUsdOf prices "ETH") s.ethHistory,
          ssvHistory := addPriceHistoryFor now (priceUsdOf prices "SSV") s.ssvHistory },
       true)
    | .fail msg =>
      ({ s with lastFetchError :=
          { s.lastFetchError with prices := some {
              code := "FETCH_FAILED", message := msg, timestamp := now } } }, false)

/-- The ETH.Store response payload shapes fetchEthStakingApr probes: a bare
number, or an object whose candidate fields are each a number or absent. -/
inductive EthStorePayload where
  | num (value : ℚ)
  | fields (avgapr31d : Option ℚ) (apr : Option ℚ) (apr_today : Option ℚ)
deriving Repr, DecidableEq

/-- The field probing order of fetchEthStakingApr: bare number first, then
avgapr31d, apr, apr_today. -/
def pickAprField (payload : EthStorePayload) : Option ℚ × Option String :=
  match payload with
  | .num v => (some v, some "numeric_payload")
  | .fields (some v) _ _ => (some v, some "avgapr31d")
  | .fields none (some v) _ => (some v, some "apr")
  | .fields none none (some v) => (some v, some "apr_today")
  | .fields none none none => (none, none)

/-- Translation of fetchEthStakingApr: missing key writes a deduplicated
MISSING_API_KEY error; a successful response always stores a sample (its
value may be none) and clears the error slot; a failure writes
FETCH_FAILED. -/
def fetchEthStakingApr (ethStoreKeyConfigured : Bool)
    (resp : HttpOutcome EthStorePayload) (now : ℤ) (s : ServerState) :
    ServerState × Bool :=
  if ¬ ethStoreKeyConfigured then
    ({ s with lastFetchError :=
        { s.lastFetchError with stakingApr :=
            (dedupSetErr s.lastFetchError.stakingApr "MISSING_API_KEY"
              "ETH.Store API key is not configured." now) } }, false)
  else
    match resp with
    | .ok payload =>
      let picked := pickAprField payload
      ({ s with
          stakingApr := some { value := picked.1, sourceField := picked.2 },
          lastFetchError := { s.lastFetchError with stakingApr := none } }, true)
    | .fail msg =>
      ({ s with lastFetchError :=
          { s.lastFetchError with stakingApr := some {
              code := "FETCH_FAILED", message := msg, timestamp := now } } }, false)

/-- The SSV totalEffectiveBalance payload after the raw-value extraction of
fetchTotalStakedEth: a numeric value (number, or string Number parses), or
nothing numeric. -/
inductive StakedPayload where
  | numeric (value : ℚ)
  | nonNumeric
deriving Repr, DecidableEq

/-- Translation of fetchTotalStakedEth: any successful response stores a
sample (value is the gwei amount divided by one billion, or none) and
clears the error slot; a failure writes FETCH_FAILED. -/
def fetchTotalStakedEth (resp : HttpOutcome StakedPayload) (now : ℤ)
    (s : ServerState) : ServerState × Bool :=
  match resp with
  | .ok payload =>
    ({ s with
        stakedEth := some {
            value :=
              match payload with
              | .numeric n => some (n / 1000000000)
              | .nonNumeric => none,
            sourceUnit := "gwei" },
        lastFetchError := { s.lastFetchError with stakedEth := none } }, true)
  | .fail msg =>
    ({ s with lastFetchError :=
        { s.lastFetchError with stakedEth := some {
            code := "FETCH_FAILED", message := msg, timestamp := now } } }, false)

/-- Result of the ABI decode attempts of fetchNetworkFee (single signature,
then tuple signature, then manual word slicing): the raw fee word and the
optional block number, or none when every attempt failed. -/
structure FeeCallOutcome where
  rawFee : Option ℕ
  blockNumber : Option ℕ
deriving Repr, DecidableEq

/-- Translation of fetchNetworkFee: a missing provider writes a
deduplicated MISSING_PROVIDER error; a call whose decode produced no fee
word throws and is caught as FETCH_FAILED; otherwise the decoded sample is
stored and the error slot cleared. -/
def fetchNetworkFee (providerConfigured : Bool) (resp : HttpOutcome FeeCallOutcome)
    (now : ℤ) (s : ServerState) : ServerState × Bool :=
  if ¬ providerConfigured then
    ({ s with lastFetchError :=
        { s.lastFetchError with networkFee :=
            (dedupSetErr s.lastFetchError.networkFee "MISSING_PROVIDER"
              "Mainnet RPC URL not configured; cannot fetch network fee." now) } }, false)
  else
    match resp with
    | .ok outcome =>
      match outcome.rawFee with
      | none =>
        ({ s with lastFetchError :=
            { s.lastFetchError with networkFee := some {
              code := "FETCH_FAILED",
                message := "Missing network fee value in contract response",
                timestamp := now } } }, false)
      | some raw =>
        let decoded := normalizeNetworkFeeDecimal raw
        ({ s with
            networkFee := some {
              percentDecimal := decoded.percentDecimal,
                raw := raw,
                decodedScale := decoded.scale,
                blockNumber := outcome.blockNumber,
                perBlockSsv := decoded.perBlockSsv,
                perYearSsv := decoded.perYearSsv },
            lastFetchError := { s.lastFetchError with networkFee := none } }, true)
    | .fail msg =>
      ({ s with lastFetchError :=
          { s.lastFetchError with networkFee := some {
              code := "FETCH_FAILED", message := msg, timestamp := now } } }, false)

/-- Outcome of the OHLCV request sequence for one symbol inside the
seeder: the final quotes array after the time-window fallback retry (it may
be empty), a thrown response whose status error code is 1006 (the plan
restriction case), or any other thrown failure. -/
inductive SeedResp where
  | ok (quotes : List OhlcvQuote)
  | planRestricted
  | failed
deriving Repr, DecidableEq

/-- Translation of the body of backfillWithCurrentPrices on the fields it
reads: for each symbol whose cached live price is a finite number greater
than zero, replace the history with thirty synthetic daily entries at that
price; the third component is whether anything was added. -/
def backfillCore (now : ℤ) (prices : Option PricesMap)
    (eth ssv : List HistoryPoint) :
    List HistoryPoint × List HistoryPoint × Bool :=
  let ethPrice := prices.bind (fun m => priceUsdOf m "ETH")
  let ssvPrice := prices.bind (fun m => priceUsdOf m "SSV")
  let stepEth :=
    match ethPrice with
    | some p => if 0 < p then (backfillEntries now p, true) else (eth, false)
    | none => (eth, false)
  let stepSsv :=
    match ssvPrice with
    | some p => if 0 < p then (backfillEntries now p, true) else (ssv, false)
    | none => (ssv, false)
  (stepEth.1, stepSsv.1, stepEth.2 || stepSsv.2)

/-- Translation of backfillWithCurrentPrices at the state level. -/
def backfillWithCurrentPrices (now : ℤ) (s : ServerState) : ServerState × Bool :=
  let core := backfillCore now s.prices s.ethHistory s.ssvHistory
  ({ s with ethHistory := core.1, ssvHistory := core.2.1 }, core.2.2)

/-- Translation of the body of seedHistoricalPricesIfNeeded on the fields
it reads and writes (the cached prices, the two histories and the
hasSeededHistory flag). Already-seeded or sufficiently filled stores return
early; a missing key skips seeding. The symbol loop runs ETH then SSV
inside one try: a plan-restriction throw (error code 1006) marks seeding
complete and keeps whatever the earlier iteration already appended, any
other throw changes nothing further, an empty quotes array skips its
symbol. When the loop appended nothing, the synthetic backfill runs, and
seeding is marked complete only when some entry was appended or
backfilled. -/
def seedCore (cmcKeyConfigured : Bool) (ethResp ssvResp : SeedResp) (now : ℤ)
    (prices : Option PricesMap) (eth ssv : List HistoryPoint) (seeded : Bool) :
    List HistoryPoint × List HistoryPoint × Bool :=
  if seeded then (eth, ssv, seeded)
  else if ¬ (eth.length < 10 ∨ ssv.length < 10) then (eth, ssv, true)
  else if ¬ cmcKeyConfigured then (eth, ssv, seeded)
  else
    match ethResp with
    | .planRestricted => (eth, ssv, true)
    | .failed => (eth, ssv, seeded)
    | .ok ethQuotes =>
      let ethStep :=
        if ethQuotes.isEmpty then (eth, false)
        else seedSymbolStep eth ethQuotes
      match ssvResp with
      | .planRestricted => (ethStep.1, ssv, true)
      | .failed => (ethStep.1, ssv, seeded)
      | .ok ssvQuotes =>
        let ssvStep :=
          if ssvQuotes.isEmpty then (ssv, false)
          else seedSymbolStep ssv ssvQuotes
        if ethStep.2 || ssvStep.2 then (ethStep.1, ssvStep.1, true)
        else
          let backfill := backfillCore now prices ethStep.1 ssvStep.1
          (backfill.1, backfill.2.1, backfill.2.2)

/-- Translation of seedHistoricalPricesIfNeeded at the state level: apply
seedCore to the fields the source function reads and store its results. -/
def seedHistoricalPricesIfNeeded (cmcKeyConfigured : Bool)
    (ethResp ssvResp : SeedResp) (now : ℤ) (s : ServerState) : ServerState :=
  let core := seedCore cmcKeyConfigured ethResp ssvResp now s.prices
    s.ethHistory s.ssvHistory s.hasSeededHistory
  { s with ethHistory := core.1, ssvHistory := core.2.1, hasSeededHistory := core.2.2 }

/-- The record calculate30dClosingWindow returns; start and end are kept as
the underlying UTC midnights in epoch milliseconds rather than the ISO date
strings the source slices out of them. -/
structure ClosingWindow where
  avg : Option ℚ
  count : ℕ
  startMs : ℤ
  endMs : ℤ
  daysSpan : ℚ
  hasGap : Bool
deriving Repr, DecidableEq

/-- Translation of calculate30dClosingWindow. The reference-time calendar
computation (last UTC day of the month before the reference time, taken
from lastCmcTimestamp when parseable, else the wall clock) is passed in as
endDateUtc; the rest follows the source: sort a copy by timestamp, bail out
on an empty store, keep entries inside the 30 calendar days ending at the
end of that day, require at least 30 of them, then report the average, the
bounds, the 29-day span and the greater-than-1.5-day gap flag. -/
def calculate30dClosingWindow (entries0 : List HistoryPoint) (endDateUtc : ℤ) :
    Option ClosingWindow :=
  let entries := entries0.mergeSort (fun a b => a.timestamp ≤ b.timestamp)
  if entries.isEmpty then none
  else
    let startDateUtc := endDateUtc - 29 * msPerDay
    let endExclusive := endDateUtc + msPerDay
    let windowEntries := entries.filter
      (fun e => decide (startDateUtc ≤ e.timestamp ∧ e.timestamp < endExclusive))
    if windowEntries.length < 30 then none
    else
      let avg := (windowEntries.foldl (fun acc e => acc + e.priceUsd) 0)
        / (windowEntries.length : ℚ)
      let hasGap := (windowEntries.zip windowEntries.tail).any
        (fun p => decide (3 * msPerDay / 2 < p.2.timestamp - p.1.timestamp))
      some
        { avg := some avg,
          count := windowEntries.length,
          startMs := startDateUtc,
          endMs := endDateUtc,
          daysSpan := ((endDateUtc - startDateUtc : ℤ) : ℚ) / (msPerDay : ℚ),
          hasGap := hasGap }

/-- Translation of logProjectedNextMonthFee as a function from the fields
it reads to the nextMonthFeeProjection slot it leaves behind; prev is the
projection stored before the call. The first guard compares
ethWindow?.avg against null under strict equality: when a window is null
the optional chain yields undefined, the comparison is false and the
guard does not fire, so a null window falls through to the windowOk
check, which is falsy for it and clears the slot. Accordingly
avgEthPrice is modelled as an Option of an Option: none is undefined
(null window), some none is a null avg field on an existing window (in
the source this needs a non-finite average, which the rationals rule
out, but the comparison is kept), and some (some q) is a number. The
guard and the non-positive-yield check return early, leaving prev in
place; the windowOk failure and an invalid final value overwrite the
slot with none. -/
def logProjectedNextMonthFee (v1 : Option ℚ) (ethHist ssvHist : List HistoryPoint)
    (stakingApr : Option StakingAprSample) (endDateUtc now : ℤ)
    (prev : Option FeeProjection) : Option FeeProjection :=
  let ethWindow := calculate30dClosingWindow ethHist endDateUtc
  let ssvWindow := calculate30dClosingWindow ssvHist endDateUtc
  let avgEthPrice : Option (Option ℚ) := ethWindow.map (·.avg)
  let avgSsvPrice : Option (Option ℚ) := ssvWindow.map (·.avg)
  let stakingAprDecimal : Option ℚ := stakingApr.bind (·.value)
  let networkFeePercentDecimal := normalizePercentDecimal v1
  if avgEthPrice == some none || avgSsvPrice == some none ||
      (match stakingAprDecimal with
       | some a => decide (a ≤ 0)
       | none => true) ||
      networkFeePercentDecimal.isNone then
    prev
  else
    match ethWindow, ssvWindow, stakingAprDecimal, networkFeePercentDecimal with
    | some ew, some sw, some apr, some pct =>
      if ¬ (30 ≤ ew.count ∧ 30 ≤ sw.count ∧ ew.hasGap = false ∧ sw.hasGap = false ∧
            29 ≤ ew.daysSpan ∧ 29 ≤ sw.daysSpan) then none
      else
        match ew.avg, sw.avg with
        | some ethAvg, some ssvAvg =>
          let perValidatorEthYieldUsd := 32 * ethAvg * apr
          if perValidatorEthYieldUsd ≤ 0 then prev
          else
            let perYearSsv := perValidatorEthYieldUsd * pct / ssvAvg
            if 0 < perYearSsv then
              some
                { perYearSsv := perYearSsv,
                  avgEthPrice := ethAvg,
                  avgSsvPrice := ssvAvg,
                  stakingApr := apr,
                  networkFeePercent := pct,
                  computedAt := now }
            else none
        | _, _ => prev
    | _, _, _, _ => none

/-- The startup configuration the server reads once: which credentials and
provider are configured, and NETWORK_FEE_PERCENT_V1 (none when the
configured value is not a finite number; its default is 0.01). -/
structure Config where
  cmcKeyConfigured : Bool
  ethStoreKeyConfigured : Bool
  providerConfigured : Bool
  networkFeePercentV1 : Option ℚ
deriving Repr, DecidableEq

/-- Everything one poll cycle receives from the outside world: the wall
clock, each adapter call outcome, the two seeder request outcomes, and the
calendar-derived end of the previous UTC month used by the window query. -/
structure CycleInput where
  now : ℤ
  pricesResp : HttpOutcome CmcResponse
  aprResp : HttpOutcome EthStorePayload
  stakedResp : HttpOutcome StakedPayload
  feeResp : HttpOutcome FeeCallOutcome
  ethSeedResp : SeedResp
  ssvSeedResp : SeedResp
  endDateUtc : ℤ
deriving Repr, DecidableEq

/-- The Promise.all fan-out of fetchAllData: the four adapters settle (they
write disjoint parts of the state, so the concurrent fan-out is composed
sequentially); returns the settled state and whether any adapter
succeeded. -/
def runAdapters (cfg : Config) (inp : CycleInput) (s : ServerState) :
    ServerState × Bool :=
  let r1 := fetchLatestPrices cfg.cmcKeyConfigured inp.pricesResp inp.now s
  let r2 := fetchEthStakingApr cfg.ethStoreKeyConfigured inp.aprResp inp.now r1.1
  let r3 := fetchTotalStakedEth inp.stakedResp inp.now r2.1
  let r4 := fetchNetworkFee cfg.providerConfigured inp.feeResp inp.now r3.1
  (r4.1, r1.2 || r2.2 || r3.2 || r4.2)

/-- The lastUpdated stamp at the end of fetchAllData: written only when at
least one adapter succeeded. -/
def stampLastUpdated (anyOk : Bool) (now : ℤ) (s : ServerState) : ServerState :=
  if anyOk then { s with lastUpdated := some now } else s

/-- The projection recomputation at the end of fetchAllData. -/
def applyProjection (cfg : Config) (inp : CycleInput) (s : ServerState) :
    ServerState :=
  { s with nextMonthFeeProjection :=
      (logProjectedNextMonthFee cfg.networkFeePercentV1 s.ethHistory s.ssvHistory
        s.stakingApr inp.endDateUtc inp.now s.nextMonthFeeProjection) }

/-- Translation of fetchAllData: the adapters settle, then the seeder runs,
lastUpdated is stamped when at least one adapter succeeded, and the
projection is recomputed. -/
def fetchAllData (cfg : Config) (inp : CycleInput) (s : ServerState) : ServerState :=
  let r := runAdapters cfg inp s
  let s5 := seedHistoricalPricesIfNeeded cfg.cmcKeyConfigured inp.ethSeedResp
    inp.ssvSeedResp inp.now r.1
  applyProjection cfg inp (stampLastUpdated r.2 inp.now s5)

/-- A run of the poller: fold fetchAllData over a list of cycle inputs,
starting from the initial state. -/
def runCycles (cfg : Config) (inps : List CycleInput) : ServerState :=
  inps.foldl (fun s inp => fetchAllData cfg inp s) initialState

/-- The response of GET /api/prices, flattened: the HTTP status, the data
fields, and the error map (the 503 body carries only the error map). -/
structure ApiPricesResponse where
  status : ℕ
  prices : Option PricesMap
  stakingApr : Option StakingAprSample
  stakedEth : Option StakedEthSample
  networkFeePercent : Option ℚ
  networkFeeYearlySsv : Option ℚ
  nextMonthNetworkFeeYearlySsv : Option ℚ
  networkFee : Option NetworkFeeSample
  lastUpdated : Option ℤ
  lastFetchError : LastFetchError
deriving Repr, DecidableEq

/-- Translation of the GET /api/prices handler: 503 when the prices,
stakingApr and stakedEth caches are all still empty, else 200 with the
cached values; networkFeePercent is the configured override when it is a
finite number, else the decoded on-chain percent. -/
def apiPrices (cfg : Config) (s : ServerState) : ApiPricesResponse :=
  if s.prices = none ∧ s.stakingApr = none ∧ s.stakedEth = none then
    { status := 503, prices := none, stakingApr := none, stakedEth := none,
      networkFeePercent := none, networkFeeYearlySsv := none,
      nextMonthNetworkFeeYearlySsv := none, networkFee := none,
      lastUpdated := none, lastFetchError := s.lastFetchError }
  else
    { status := 200,
      prices := s.prices,
      stakingApr := s.stakingApr,
      stakedEth := s.stakedEth,
      networkFeePercent :=
        match cfg.networkFeePercentV1 with
        | some v => some v
        | none => s.networkFee.bind (·.percentDecimal),
      networkFeeYearlySsv := s.networkFee.bind (·.perYearSsv),
      nextMonthNetworkFeeYearlySsv := s.nextMonthFeeProjection.map (·.perYearSsv),
      networkFee := s.networkFee,
      lastUpdated := s.lastUpdated,
      lastFetchError := s.lastFetchError }

/-- State of the polling loop itself: how many fetchAllData invocations are
currently in flight and how many have completed. -/
structure PollLoopState where
  inFlight : ℕ
  completed : ℕ
deriving Repr, DecidableEq

/-- One timer tick as wired in startPolling: the interval callback is
fetchAllData itself, invoked unconditionally, so a tick always starts one
more cycle; the source keeps no in-flight flag that could drop a tick. -/
def intervalTick (s : PollLoopState) : PollLoopState :=
  { s with inFlight := s.inFlight + 1 }

/-- Completion of one in-flight cycle. -/
def cycleCompletes (s : PollLoopState) : PollLoopState :=
  { inFlight := s.inFlight - 1, completed := s.completed + 1 }

/-- The loop state right after startPolling began its first awaited
fetchAllData call. -/
def pollLoopStart : PollLoopState := { inFlight := 1, completed := 0 }

/-- Boolean success predicates of the four adapter calls of one cycle, read
off the translated functions: the prices fetch succeeds when the key is
configured and the request returned; likewise for the APR fetch; the
staked-ETH fetch succeeds when the request returned; the fee fetch needs a
provider, a returned call and a decoded fee word. -/
def pricesFetchOk (cfg : Config) (inp : CycleInput) : Bool :=
  cfg.cmcKeyConfigured &&
    (match inp.pricesResp with | .ok _ => true | .fail _ => false)

/-- Success predicate of the staking APR fetch of one cycle. -/
def aprFetchOk (cfg : Config) (inp : CycleInput) : Bool :=
  cfg.ethStoreKeyConfigured &&
    (match inp.aprResp with | .ok _ => true | .fail _ => false)

/-- Success predicate of the staked ETH fetch of one cycle. -/
def stakedFetchOk (inp : CycleInput) : Bool :=
  match inp.stakedResp with | .ok _ => true | .fail _ => false

/-- Success predicate of the network fee fetch of one cycle. -/
def feeFetchOk (cfg : Config) (inp : CycleInput) : Bool :=
  cfg.providerConfigured &&
    (match inp.feeResp with
     | .ok outcome => outcome.rawFee.isSome
     | .fail _ => false)

-- ## Concrete fixtures used by witnesses and counterexamples

/-- A configuration with no price credential, no staking key, and a
configured RPC provider; the fee override keeps its 0.01 default. -/
def cfgFeeOnly : Config :=
  { cmcKeyConfigured := false, ethStoreKeyConfigured := false,
    providerConfigured := true, networkFeePercentV1 := some (1/100) }

/-- A cycle in which only the on-chain fee read succeeds. -/
def inpFeeOnly : CycleInput :=
  { now := 0, pricesResp := .fail "down", aprResp := .fail "down",
    stakedResp := .fail "down", feeResp := .ok { rawFee := some 1000000, blockNumber := none },
    ethSeedResp := .failed, ssvSeedResp := .failed, endDateUtc := 0 }

/-- A configuration with the staking key but no price credential. -/
def cfgNoPriceKey : Config :=
  { cmcKeyConfigured := false, ethStoreKeyConfigured := true,
    providerConfigured := false, networkFeePercentV1 := some (1/100) }

/-- A cycle in which the staking-yield fetch succeeds and everything else
fails. -/
def inpAprOnly : CycleInput :=
  { now := 0, pricesResp := .fail "down", aprResp := .ok (.num (1/25)),
    stakedResp := .fail "down", feeResp := .fail "down",
    ethSeedResp := .failed, ssvSeedResp := .failed, endDateUtc := 0 }

/-- A configuration with every upstream unconfigured except the fee
override default. -/
def cfgBare : Config :=
  { cmcKeyConfigured := false, ethStoreKeyConfigured := false,
    providerConfigured := false, networkFeePercentV1 := some (1/100) }

/-- A cycle in which every adapter fails. -/
def inpAllFail : CycleInput :=
  { now := 0, pricesResp := .fail "down", aprResp := .fail "down",
    stakedResp := .fail "down", feeResp := .fail "down",
    ethSeedResp := .failed, ssvSeedResp := .failed, endDateUtc := 0 }

/-- A previously stored projection, used to exhibit staleness. -/
def staleProjection : FeeProjection :=
  { perYearSsv := 24/25, avgEthPrice := 3000, avgSsvPrice := 40,
    stakingApr := 1/25, networkFeePercent := 1/100, computedAt := 0 }

/-- A state holding a cached staking APR and a stored projection but an
empty price history. -/
def staleProjState : ServerState :=
  { initialState with
    stakingApr := some { value := some (1/25), sourceField := some "avgapr31d" },
    nextMonthFeeProjection := some staleProjection }

/-- A state holding a projection stored by an earlier cycle while the
staking APR has never been fetched. -/
def staleNoAprState : ServerState :=
  { initialState with nextMonthFeeProjection := some staleProjection }

/-- A cached quote at a given price. -/
def quoteAt (symbol : String) (price : ℚ) : PriceQuote :=
  { symbol := symbol, id := none, priceUsd := some price, totalSupply := none,
    circulatingSupply := none, maxSupply := none, sourceLastUpdated := none }

/-- A cached prices map with a live ETH and SSV price. -/
def livePrices : PricesMap := [("ETH", quoteAt "ETH" 3000), ("SSV", quoteAt "SSV" 40)]

/-- A state that knows live prices but has an empty, unseeded history. -/
def unseededState : ServerState := { initialState with prices := some livePrices }

/-- One bulk OHLCV quote whose close time is epoch zero. -/
def ancientQuote : OhlcvQuote := { close := some 100, timeCloseMs := some 0 }

-- ## Helper lemmas

theorem dedupSetErr_code (existing : Option FetchErr) (code message : String)
    (now : ℤ) :
    ∃ e, dedupSetErr existing code message now = some e ∧ e.code = code := by
  unfold dedupSetErr
  cases existing with
  | none => exact ⟨_, rfl, rfl⟩
  | some e =>
    by_cases h : e.code == code
    · exact ⟨e, by simp [h], by simpa using h⟩
    · exact ⟨{ code := code, message := message, timestamp := now }, by simp [h], rfl⟩

theorem isOk_httpOutcome {α : Type} (r : HttpOutcome α) :
    (match r with | .ok _ => true | .fail _ => false) = true ↔ ∃ a, r = .ok a := by
  cases r <;> simp

theorem fetchLatestPrices_preserves (k : Bool) (r : HttpOutcome CmcResponse)
    (now : ℤ) (s : ServerState) :
    (fetchLatestPrices k r now s).1.stakingApr = s.stakingApr ∧
    (fetchLatestPrices k r now s).1.stakedEth = s.stakedEth ∧
    (fetchLatestPrices k r now s).1.networkFee = s.networkFee ∧
    (fetchLatestPrices k r now s).1.nextMonthFeeProjection = s.nextMonthFeeProjection ∧
    (fetchLatestPrices k r now s).1.hasSeededHistory = s.hasSeededHistory ∧
    (fetchLatestPrices k r now s).1.lastFetchError.stakingApr = s.lastFetchError.stakingApr ∧
    (fetchLatestPrices k r now s).1.lastFetchError.stakedEth = s.lastFetchError.stakedEth ∧
    (fetchLatestPrices k r now s).1.lastFetchError.networkFee = s.lastFetchError.networkFee := by
  unfold fetchLatestPrices
  cases k <;> cases r <;> simp

theorem fetchLatestPrices_prices_none (k : Bool) (r : HttpOutcome CmcResponse)
    (now : ℤ) (s : ServerState) :
    ((fetchLatestPrices k r now s).1.prices = none ↔
      (s.prices = none ∧
        (k && (match r with | .ok _ => true | .fail _ => false)) = false)) := by
  unfold fetchLatestPrices
  cases k <;> cases r <;> simp

theorem fetchLatestPrices_not_ok (k : Bool) (r : HttpOutcome CmcResponse)
    (now : ℤ) (s : ServerState)
    (h : (k && (match r with | .ok _ => true | .fail _ => false)) = false) :
    (fetchLatestPrices k r now s).1.prices = s.prices ∧
    (fetchLatestPrices k r now s).1.ethHistory = s.ethHistory ∧
    (fetchLatestPrices k r now s).1.ssvHistory = s.ssvHistory ∧
    (fetchLatestPrices k r now s).1.lastCmcTimestamp = s.lastCmcTimestamp := by
  unfold fetchLatestPrices
  cases k <;> cases r <;> simp_all

theorem fetchEthStakingApr_preserves (k : Bool) (r : HttpOutcome EthStorePayload)
    (now : ℤ) (s : ServerState) :
    (fetchEthStakingApr k r now s).1.prices = s.prices ∧
    (fetchEthStakingApr k r now s).1.stakedEth = s.stakedEth ∧
    (fetchEthStakingApr k r now s).1.networkFee = s.networkFee ∧
    (fetchEthStakingApr k r now s).1.nextMonthFeeProjection = s.nextMonthFeeProjection ∧
    (fetchEthStakingApr k r now s).1.hasSeededHistory = s.hasSeededHistory ∧
    (fetchEthStakingApr k r now s).1.ethHistory = s.ethHistory ∧
    (fetchEthStakingApr k r now s).1.ssvHistory = s.ssvHistory ∧
    (fetchEthStakingApr k r now s).1.lastCmcTimestamp = s.lastCmcTimestamp ∧
    (fetchEthStakingApr k r now s).1.lastFetchError.prices = s.lastFetchError.prices ∧
    (fetchEthStakingApr k r now s).1.lastFetchError.stakedEth = s.lastFetchError.stakedEth ∧
    (fetchEthStakingApr k r now s).1.lastFetchError.networkFee = s.lastFetchError.networkFee := by
  unfold fetchEthStakingApr
  cases k <;> cases r <;> simp

theorem fetchEthStakingApr_stakingApr_none (k : Bool) (r : HttpOutcome EthStorePayload)
    (now : ℤ) (s : ServerState) :
    ((fetchEthStakingApr k r now s).1.stakingApr = none ↔
      (s.stakingApr = none ∧
        (k && (match r with | .ok _ => true | .fail _ => false)) = false)) := by
  unfold fetchEthStakingApr
  cases k <;> cases r <;> simp

theorem fetchEthStakingApr_not_ok (k : Bool) (r : HttpOutcome EthStorePayload)
    (now : ℤ) (s : ServerState)
    (h : (k && (match r with | .ok _ => true | .fail _ => false)) = false) :
    (fetchEthStakingApr k r now s).1.stakingApr = s.stakingApr := by
  unfold fetchEthStakingApr
  cases k <;> cases r <;> simp_all

theorem fetchTotalStakedEth_preserves (r : HttpOutcome StakedPayload)
    (now : ℤ) (s : ServerState) :
    (fetchTotalStakedEth r now s).1.prices = s.prices ∧
    (fetchTotalStakedEth r now s).1.stakingApr = s.stakingApr ∧
    (fetchTotalStakedEth r now s).1.networkFee = s.networkFee ∧
    (fetchTotalStakedEth r now s).1.nextMonthFeeProjection = s.nextMonthFeeProjection ∧
    (fetchTotalStakedEth r now s).1.hasSeededHistory = s.hasSeededHistory ∧
    (fetchTotalStakedEth r now s).1.ethHistory = s.ethHistory ∧
    (fetchTotalStakedEth r now s).1.ssvHistory = s.ssvHistory ∧
    (fetchTotalStakedEth r now s).1.lastCmcTimestamp = s.lastCmcTimestamp ∧
    (fetchTotalStakedEth r now s).1.lastFetchError.prices = s.lastFetchError.prices ∧
    (fetchTotalStakedEth r now s).1.lastFetchError.stakingApr = s.lastFetchError.stakingApr ∧
    (fetchTotalStakedEth r now s).1.lastFetchError.networkFee = s.lastFetchError.networkFee := by
  unfold fetchTotalStakedEth
  cases r <;> simp

theorem fetchTotalStakedEth_stakedEth_none (r : HttpOutcome StakedPayload)
    (now : ℤ) (s : ServerState) :
    ((fetchTotalStakedEth r now s).1.stakedEth = none ↔
      (s.stakedEth = none ∧
        (match r with | .ok _ => true | .fail _ => false) = false)) := by
  unfold fetchTotalStakedEth
  cases r <;> simp

theorem fetchTotalStakedEth_not_ok (r : HttpOutcome StakedPayload)
    (now : ℤ) (s : ServerState)
    (h : (match r with | .ok _ => true | .fail _ => false) = false) :
    (fetchTotalStakedEth r now s).1.stakedEth = s.stakedEth := by
  unfold fetchTotalStakedEth
  cases r <;> simp_all

theorem fetchNetworkFee_preserves (k : Bool) (r : HttpOutcome FeeCallOutcome)
    (now : ℤ) (s : ServerState) :
    (fetchNetworkFee k r now s).1.prices = s.prices ∧
    (fetchNetworkFee k r now s).1.stakingApr = s.stakingApr ∧
    (fetchNetworkFee k r now s).1.stakedEth = s.stakedEth ∧
    (fetchNetworkFee k r now s).1.nextMonthFeeProjection = s.nextMonthFeeProjection ∧
    (fetchNetworkFee k r now s).1.hasSeededHistory = s.hasSeededHistory ∧
    (fetchNetworkFee k r now s).1.ethHistory = s.ethHistory ∧
    (fetchNetworkFee k r now s).1.ssvHistory = s.ssvHistory ∧
    (fetchNetworkFee k r now s).1.lastCmcTimestamp = s.lastCmcTimestamp ∧
    (fetchNetworkFee k r now s).1.lastFetchError.prices = s.lastFetchError.prices ∧
    (fetchNetworkFee k r now s).1.lastFetchError.stakingApr = s.lastFetchError.stakingApr ∧
    (fetchNetworkFee k r now s).1.lastFetchError.stakedEth = s.lastFetchError.stakedEth := by
  unfold fetchNetworkFee
  cases k <;> cases r <;> simp
  all_goals
    rename_i o
    cases h : o.rawFee <;> simp [h]

theorem fetchNetworkFee_networkFee_none (k : Bool) (r : HttpOutcome FeeCallOutcome)
    (now : ℤ) (s : ServerState) :
    ((fetchNetworkFee k r now s).1.networkFee = none ↔
      (s.networkFee = none ∧
        (k && (match r with
          | .ok o => o.rawFee.isSome
          | .fail _ => false)) = false)) := by
  unfold fetchNetworkFee
  cases k <;> cases r <;> simp
  all_goals
    rename_i o
    cases h : o.rawFee <;> simp [h]

theorem fetchNetworkFee_not_ok (k : Bool) (r : HttpOutcome FeeCallOutcome)
    (now : ℤ) (s : ServerState)
    (h : (k && (match r with
      | .ok o => o.rawFee.isSome
      | .fail _ => false)) = false) :
    (fetchNetworkFee k r now s).1.networkFee = s.networkFee := by
  unfold fetchNetworkFee
  cases k <;> cases r <;> simp_all


theorem seedHistoricalPricesIfNeeded_shape (k : Bool) (er sr : SeedResp)
    (now : ℤ) (s : ServerState) :
    ∃ eh sh b, seedHistoricalPricesIfNeeded k er sr now s =
      { s with ethHistory := eh, ssvHistory := sh, hasSeededHistory := b } := by
  exact ⟨_, _, _, rfl⟩

theorem seed_preserves (k : Bool) (er sr : SeedResp) (now : ℤ) (s : ServerState) :
    (seedHistoricalPricesIfNeeded k er sr now s).prices = s.prices ∧
    (seedHistoricalPricesIfNeeded k er sr now s).stakingApr = s.stakingApr ∧
    (seedHistoricalPricesIfNeeded k er sr now s).stakedEth = s.stakedEth ∧
    (seedHistoricalPricesIfNeeded k er sr now s).networkFee = s.networkFee ∧
    (seedHistoricalPricesIfNeeded k er sr now s).nextMonthFeeProjection =
      s.nextMonthFeeProjection ∧
    (seedHistoricalPricesIfNeeded k er sr now s).lastFetchError = s.lastFetchError ∧
    (seedHistoricalPricesIfNeeded k er sr now s).lastUpdated = s.lastUpdated ∧
    (seedHistoricalPricesIfNeeded k er sr now s).lastCmcTimestamp = s.lastCmcTimestamp := by
  obtain ⟨eh, sh, b, hEq⟩ := seedHistoricalPricesIfNeeded_shape k er sr now s
  rw [hEq]
  simp

theorem stampLastUpdated_preserves (ok : Bool) (now : ℤ) (s : ServerState) :
    (stampLastUpdated ok now s).prices = s.prices ∧
    (stampLastUpdated ok now s).stakingApr = s.stakingApr ∧
    (stampLastUpdated ok now s).stakedEth = s.stakedEth ∧
    (stampLastUpdated ok now s).networkFee = s.networkFee ∧
    (stampLastUpdated ok now s).nextMonthFeeProjection = s.nextMonthFeeProjection ∧
    (stampLastUpdated ok now s).lastFetchError = s.lastFetchError ∧
    (stampLastUpdated ok now s).ethHistory = s.ethHistory ∧
    (stampLastUpdated ok now s).ssvHistory = s.ssvHistory ∧
    (stampLastUpdated ok now s).hasSeededHistory = s.hasSeededHistory := by
  unfold stampLastUpdated
  cases ok <;> simp

theorem applyProjection_preserves (cfg : Config) (inp : CycleInput) (s : ServerState) :
    (applyProjection cfg inp s).prices = s.prices ∧
    (applyProjection cfg inp s).stakingApr = s.stakingApr ∧
    (applyProjection cfg inp s).stakedEth = s.stakedEth ∧
    (applyProjection cfg inp s).networkFee = s.networkFee ∧
    (applyProjection cfg inp s).lastFetchError = s.lastFetchError ∧
    (applyProjection cfg inp s).ethHistory = s.ethHistory ∧
    (applyProjection cfg inp s).ssvHistory = s.ssvHistory ∧
    (applyProjection cfg inp s).hasSeededHistory = s.hasSeededHistory := by
  unfold applyProjection
  simp

theorem runAdapters_prices (cfg : Config) (inp : CycleInput) (s : ServerState) :
    (runAdapters cfg inp s).1.prices =
      (fetchLatestPrices cfg.cmcKeyConfigured inp.pricesResp inp.now s).1.prices := by
  unfold runAdapters
  rw [(fetchNetworkFee_preserves _ _ _ _).1, (fetchTotalStakedEth_preserves _ _ _).1,
    (fetchEthStakingApr_preserves _ _ _ _).1]

theorem runAdapters_stakingApr (cfg : Config) (inp : CycleInput) (s : ServerState) :
    (runAdapters cfg inp s).1.stakingApr =
      (fetchEthStakingApr cfg.ethStoreKeyConfigured inp.aprResp inp.now
        (fetchLatestPrices cfg.cmcKeyConfigured inp.pricesResp inp.now s).1).1.stakingApr := by
  unfold runAdapters
  rw [(fetchNetworkFee_preserves _ _ _ _).2.1, (fetchTotalStakedEth_preserves _ _ _).2.1]

theorem fetchAllData_prices_eq (cfg : Config) (inp : CycleInput) (s : ServerState) :
    (fetchAllData cfg inp s).prices =
      (fetchLatestPrices cfg.cmcKeyConfigured inp.pricesResp inp.now s).1.prices := by
  unfold fetchAllData
  rw [(applyProjection_preserves _ _ _).1, (stampLastUpdated_preserves _ _ _).1,
    (seed_preserves _ _ _ _ _).1, runAdapters_prices]

theorem runAdapters_stakedEth (cfg : Config) (inp : CycleInput) (s : ServerState) :
    (runAdapters cfg inp s).1.stakedEth =
      (fetchTotalStakedEth inp.stakedResp inp.now
        (fetchEthStakingApr cfg.ethStoreKeyConfigured inp.aprResp inp.now
          (fetchLatestPrices cfg.cmcKeyConfigured inp.pricesResp inp.now s).1).1).1.stakedEth := by
  unfold runAdapters
  rw [(fetchNetworkFee_preserves _ _ _ _).2.2.1]

theorem runAdapters_networkFee (cfg : Config) (inp : CycleInput) (s : ServerState) :
    (runAdapters cfg inp s).1.networkFee =
      (fetchNetworkFee cfg.providerConfigured inp.feeResp inp.now
        (fetchTotalStakedEth inp.stakedResp inp.now
          (fetchEthStakingApr cfg.ethStoreKeyConfigured inp.aprResp inp.now
            (fetchLatestPrices cfg.cmcKeyConfigured inp.pricesResp inp.now s).1).1).1).1.networkFee := by
  unfold runAdapters
  rfl

theorem fetchAllData_stakingApr_eq (cfg : Config) (inp : CycleInput) (s : ServerState) :
    (fetchAllData cfg inp s).stakingApr =
      (fetchEthStakingApr cfg.ethStoreKeyConfigured inp.aprResp inp.now
        (fetchLatestPrices cfg.cmcKeyConfigured inp.pricesResp inp.now s).1).1.stakingApr := by
  unfold fetchAllData
  rw [(applyProjection_preserves _ _ _).2.1, (stampLastUpdated_preserves _ _ _).2.1,
    (seed_preserves _ _ _ _ _).2.1, runAdapters_stakingApr]

theorem fetchAllData_stakedEth_eq (cfg : Config) (inp : CycleInput) (s : ServerState) :
    (fetchAllData cfg inp s).stakedEth =
      (fetchTotalStakedEth inp.stakedResp inp.now
        (fetchEthStakingApr cfg.ethStoreKeyConfigured inp.aprResp inp.now
          (fetchLatestPrices cfg.cmcKeyConfigured inp.pricesResp inp.now s).1).1).1.stakedEth := by
  unfold fetchAllData
  rw [(applyProjection_preserves _ _ _).2.2.1, (stampLastUpdated_preserves _ _ _).2.2.1,
    (seed_preserves _ _ _ _ _).2.2.1, runAdapters_stakedEth]

theorem fetchAllData_networkFee_eq (cfg : Config) (inp : CycleInput) (s : ServerState) :
    (fetchAllData cfg inp s).networkFee =
      (fetchNetworkFee cfg.providerConfigured inp.feeResp inp.now
        (fetchTotalStakedEth inp.stakedResp inp.now
          (fetchEthStakingApr cfg.ethStoreKeyConfigured inp.aprResp inp.now
            (fetchLatestPrices cfg.cmcKeyConfigured inp.pricesResp inp.now s).1).1).1).1.networkFee := by
  unfold fetchAllData
  rw [(applyProjection_preserves _ _ _).2.2.2.1, (stampLastUpdated_preserves _ _ _).2.2.2.1,
    (seed_preserves _ _ _ _ _).2.2.2.1, runAdapters_networkFee]

theorem fetchAllData_prices_none (cfg : Config) (inp : CycleInput) (s : ServerState) :
    ((fetchAllData cfg inp s).prices = none ↔
      (s.prices = none ∧ pricesFetchOk cfg inp = false)) := by
  rw [fetchAllData_prices_eq, fetchLatestPrices_prices_none]
  rfl

theorem fetchAllData_prices_unchanged (cfg : Config) (inp : CycleInput) (s : ServerState)
    (h : pricesFetchOk cfg inp = false) :
    (fetchAllData cfg inp s).prices = s.prices := by
  rw [fetchAllData_prices_eq]
  exact (fetchLatestPrices_not_ok _ _ _ _ h).1

theorem fetchAllData_stakingApr_none (cfg : Config) (inp : CycleInput) (s : ServerState) :
    ((fetchAllData cfg inp s).stakingApr = none ↔
      (s.stakingApr = none ∧ aprFetchOk cfg inp = false)) := by
  rw [fetchAllData_stakingApr_eq, fetchEthStakingApr_stakingApr_none,
    (fetchLatestPrices_preserves _ _ _ _).1]
  rfl

theorem fetchAllData_stakingApr_unchanged (cfg : Config) (inp : CycleInput)
    (s : ServerState) (h : aprFetchOk cfg inp = false) :
    (fetchAllData cfg inp s).stakingApr = s.stakingApr := by
  rw [fetchAllData_stakingApr_eq, fetchEthStakingApr_not_ok _ _ _ _ h,
    (fetchLatestPrices_preserves _ _ _ _).1]

theorem fetchAllData_stakedEth_none (cfg : Config) (inp : CycleInput) (s : ServerState) :
    ((fetchAllData cfg inp s).stakedEth = none ↔
      (s.stakedEth = none ∧ stakedFetchOk inp = false)) := by
  rw [fetchAllData_stakedEth_eq, fetchTotalStakedEth_stakedEth_none,
    (fetchEthStakingApr_preserves _ _ _ _).2.1, (fetchLatestPrices_preserves _ _ _ _).2.1]
  rfl

theorem fetchAllData_stakedEth_unchanged (cfg : Config) (inp : CycleInput)
    (s : ServerState) (h : stakedFetchOk inp = false) :
    (fetchAllData cfg inp s).stakedEth = s.stakedEth := by
  rw [fetchAllData_stakedEth_eq, fetchTotalStakedEth_not_ok _ _ _ h,
    (fetchEthStakingApr_preserves _ _ _ _).2.1, (fetchLatestPrices_preserves _ _ _ _).2.1]

theorem fetchAllData_networkFee_none (cfg : Config) (inp : CycleInput) (s : ServerState) :
    ((fetchAllData cfg inp s).networkFee = none ↔
      (s.networkFee = none ∧ feeFetchOk cfg inp = false)) := by
  rw [fetchAllData_networkFee_eq, fetchNetworkFee_networkFee_none,
    (fetchTotalStakedEth_preserves _ _ _).2.2.1, (fetchEthStakingApr_preserves _ _ _ _).2.2.1,
    (fetchLatestPrices_preserves _ _ _ _).2.2.1]
  rfl

theorem fetchAllData_networkFee_unchanged (cfg : Config) (inp : CycleInput)
    (s : ServerState) (h : feeFetchOk cfg inp = false) :
    (fetchAllData cfg inp s).networkFee = s.networkFee := by
  rw [fetchAllData_networkFee_eq, fetchNetworkFee_not_ok _ _ _ _ h,
    (fetchTotalStakedEth_preserves _ _ _).2.2.1, (fetchEthStakingApr_preserves _ _ _ _).2.2.1,
    (fetchLatestPrices_preserves _ _ _ _).2.2.1]

theorem foldl_prices_none (cfg : Config) (inps : List CycleInput) :
    ∀ s : ServerState,
      ((inps.foldl (fun t inp => fetchAllData cfg inp t) s).prices = none ↔
        (s.prices = none ∧ ∀ i ∈ inps, pricesFetchOk cfg i = false)) := by
  induction inps with
  | nil => intro s; simp
  | cons i t ih =>
    intro s
    rw [List.foldl_cons, ih, fetchAllData_prices_none]
    constructor
    · rintro ⟨⟨h1, h2⟩, h3⟩
      exact ⟨h1, by intro j hj; rcases List.mem_cons.mp hj with rfl | hj; exact h2; exact h3 j hj⟩
    · rintro ⟨h1, h2⟩
      exact ⟨⟨h1, h2 i (List.mem_cons_self i t)⟩, fun j hj => h2 j (List.mem_cons_of_mem i hj)⟩

theorem foldl_stakingApr_none (cfg : Config) (inps : List CycleInput) :
    ∀ s : ServerState,
      ((inps.foldl (fun t inp => fetchAllData cfg inp t) s).stakingApr = none ↔
        (s.stakingApr = none ∧ ∀ i ∈ inps, aprFetchOk cfg i = false)) := by
  induction inps with
  | nil => intro s; simp
  | cons i t ih =>
    intro s
    rw [List.foldl_cons, ih, fetchAllData_stakingApr_none]
    constructor
    · rintro ⟨⟨h1, h2⟩, h3⟩
      exact ⟨h1, by intro j hj; rcases List.mem_cons.mp hj with rfl | hj; exact h2; exact h3 j hj⟩
    · rintro ⟨h1, h2⟩
      exact ⟨⟨h1, h2 i (List.mem_cons_self i t)⟩, fun j hj => h2 j (List.mem_cons_of_mem i hj)⟩

theorem foldl_stakedEth_none (cfg : Config) (inps : List CycleInput) :
    ∀ s : ServerState,
      ((inps.foldl (fun t inp => fetchAllData cfg inp t) s).stakedEth = none ↔
        (s.stakedEth = none ∧ ∀ i ∈ inps, stakedFetchOk i = false)) := by
  induction inps with
  | nil => intro s; simp
  | cons i t ih =>
    intro s
    rw [List.foldl_cons, ih, fetchAllData_stakedEth_none]
    constructor
    · rintro ⟨⟨h1, h2⟩, h3⟩
      exact ⟨h1, by intro j hj; rcases List.mem_cons.mp hj with rfl | hj; exact h2; exact h3 j hj⟩
    · rintro ⟨h1, h2⟩
      exact ⟨⟨h1, h2 i (List.mem_cons_self i t)⟩, fun j hj => h2 j (List.mem_cons_of_mem i hj)⟩

theorem foldl_networkFee_none (cfg : Config) (inps : List CycleInput) :
    ∀ s : ServerState,
      ((inps.foldl (fun t inp => fetchAllData cfg inp t) s).networkFee = none ↔
        (s.networkFee = none ∧ ∀ i ∈ inps, feeFetchOk cfg i = false)) := by
  induction inps with
  | nil => intro s; simp
  | cons i t ih =>
    intro s
    rw [List.foldl_cons, ih, fetchAllData_networkFee_none]
    constructor
    · rintro ⟨⟨h1, h2⟩, h3⟩
      exact ⟨h1, by intro j hj; rcases List.mem_cons.mp hj with rfl | hj; exact h2; exact h3 j hj⟩
    · rintro ⟨h1, h2⟩
      exact ⟨⟨h1, h2 i (List.mem_cons_self i t)⟩, fun j hj => h2 j (List.mem_cons_of_mem i hj)⟩

theorem fetchLatestPrices_blind (k : Bool) (r : HttpOutcome CmcResponse) (now : ℤ)
    (s : ServerState) (nf : Option NetworkFeeSample) :
    fetchLatestPrices k r now { s with networkFee := nf } =
      ({ (fetchLatestPrices k r now s).1 with networkFee := nf },
        (fetchLatestPrices k r now s).2) := by
  unfold fetchLatestPrices
  cases k <;> cases r <;> simp

theorem fetchEthStakingApr_blind (k : Bool) (r : HttpOutcome EthStorePayload) (now : ℤ)
    (s : ServerState) (nf : Option NetworkFeeSample) :
    fetchEthStakingApr k r now { s with networkFee := nf } =
      ({ (fetchEthStakingApr k r now s).1 with networkFee := nf },
        (fetchEthStakingApr k r now s).2) := by
  unfold fetchEthStakingApr
  cases k <;> cases r <;> simp

theorem fetchTotalStakedEth_blind (r : HttpOutcome StakedPayload) (now : ℤ)
    (s : ServerState) (nf : Option NetworkFeeSample) :
    fetchTotalStakedEth r now { s with networkFee := nf } =
      ({ (fetchTotalStakedEth r now s).1 with networkFee := nf },
        (fetchTotalStakedEth r now s).2) := by
  unfold fetchTotalStakedEth
  cases r <;> simp

theorem fetchNetworkFee_blind (k : Bool) (r : HttpOutcome FeeCallOutcome) (now : ℤ)
    (s : ServerState) (nf : Option NetworkFeeSample) :
    (fetchNetworkFee k r now { s with networkFee := nf }).1.ethHistory =
      (fetchNetworkFee k r now s).1.ethHistory ∧
    (fetchNetworkFee k r now { s with networkFee := nf }).1.ssvHistory =
      (fetchNetworkFee k r now s).1.ssvHistory ∧
    (fetchNetworkFee k r now { s with networkFee := nf }).1.stakingApr =
      (fetchNetworkFee k r now s).1.stakingApr ∧
    (fetchNetworkFee k r now { s with networkFee := nf }).1.prices =
      (fetchNetworkFee k r now s).1.prices ∧
    (fetchNetworkFee k r now { s with networkFee := nf }).1.hasSeededHistory =
      (fetchNetworkFee k r now s).1.hasSeededHistory ∧
    (fetchNetworkFee k r now { s with networkFee := nf }).1.nextMonthFeeProjection =
      (fetchNetworkFee k r now s).1.nextMonthFeeProjection ∧
    (fetchNetworkFee k r now { s with networkFee := nf }).2 =
      (fetchNetworkFee k r now s).2 := by
  unfold fetchNetworkFee
  cases k <;> cases r <;> simp
  all_goals
    rename_i o
    cases h : o.rawFee <;> simp [h]

theorem seedHistoricalPricesIfNeeded_blind (k : Bool) (er sr : SeedResp) (now : ℤ)
    (s : ServerState) (nf : Option NetworkFeeSample) :
    seedHistoricalPricesIfNeeded k er sr now { s with networkFee := nf } =
      { seedHistoricalPricesIfNeeded k er sr now s with networkFee := nf } := by
  unfold seedHistoricalPricesIfNeeded
  rfl

theorem fetchAllData_networkFee_blind (cfg : Config) (inp : CycleInput)
    (s : ServerState) (nf : Option NetworkFeeSample) :
    (fetchAllData cfg inp { s with networkFee := nf }).nextMonthFeeProjection =
      (fetchAllData cfg inp s).nextMonthFeeProjection := by
  unfold fetchAllData runAdapters applyProjection
  dsimp only
  rw [fetchLatestPrices_blind]
  dsimp only
  rw [fetchEthStakingApr_blind]
  dsimp only
  rw [fetchTotalStakedEth_blind]
  dsimp only
  obtain ⟨hEth, hSsv, hApr, hPrices, hSeeded, hProj, hBit⟩ :=
    fetchNetworkFee_blind cfg.providerConfigured inp.feeResp inp.now
      (fetchTotalStakedEth inp.stakedResp inp.now
        (fetchEthStakingApr cfg.ethStoreKeyConfigured inp.aprResp inp.now
          (fetchLatestPrices cfg.cmcKeyConfigured inp.pricesResp inp.now s).1).1).1 nf
  unfold seedHistoricalPricesIfNeeded stampLastUpdated
  rw [hEth, hSsv, hApr, hPrices, hSeeded, hProj, hBit]
  split <;> rfl

theorem fetchLatestPrices_missingKey (r : HttpOutcome CmcResponse) (now : ℤ)
    (s : ServerState) :
    (fetchLatestPrices false r now s).1.lastFetchError.prices =
      dedupSetErr s.lastFetchError.prices "MISSING_API_KEY"
        "CoinMarketCap API key is not configured." now := by
  unfold fetchLatestPrices
  simp

theorem fetchEthStakingApr_ok (k : Bool) (r : HttpOutcome EthStorePayload)
    (now : ℤ) (s : ServerState)
    (h : (k && (match r with | .ok _ => true | .fail _ => false)) = true) :
    (fetchEthStakingApr k r now s).1.stakingApr.isSome = true := by
  unfold fetchEthStakingApr
  cases k <;> cases r <;> simp_all

theorem fetchAllData_errPrices_eq (cfg : Config) (inp : CycleInput) (s : ServerState) :
    (fetchAllData cfg inp s).lastFetchError.prices =
      (fetchLatestPrices cfg.cmcKeyConfigured inp.pricesResp inp.now s).1.lastFetchError.prices := by
  unfold fetchAllData
  rw [congrArg LastFetchError.prices (applyProjection_preserves _ _ _).2.2.2.2.1,
    congrArg LastFetchError.prices (stampLastUpdated_preserves _ _ _).2.2.2.2.2.1,
    congrArg LastFetchError.prices (seed_preserves _ _ _ _ _).2.2.2.2.2.1]
  unfold runAdapters
  rw [(fetchNetworkFee_preserves _ _ _ _).2.2.2.2.2.2.2.2.1,
    (fetchTotalStakedEth_preserves _ _ _).2.2.2.2.2.2.2.2.1,
    (fetchEthStakingApr_preserves _ _ _ _).2.2.2.2.2.2.2.2.1]

theorem apiPrices_of_ready (cfg : Config) (s : ServerState)
    (h : ¬ (s.prices = none ∧ s.stakingApr = none ∧ s.stakedEth = none)) :
    apiPrices cfg s =
      { status := 200,
        prices := s.prices,
        stakingApr := s.stakingApr,
        stakedEth := s.stakedEth,
        networkFeePercent :=
          match cfg.networkFeePercentV1 with
          | some v => some v
          | none => s.networkFee.bind (·.percentDecimal),
        networkFeeYearlySsv := s.networkFee.bind (·.perYearSsv),
        nextMonthNetworkFeeYearlySsv := s.nextMonthFeeProjection.map (·.perYearSsv),
        networkFee := s.networkFee,
        lastUpdated := s.lastUpdated,
        lastFetchError := s.lastFetchError } := by
  unfold apiPrices
  rw [if_neg h]

theorem apiPrices_status_iff (cfg : Config) (s : ServerState) :
    ((apiPrices cfg s).status = 503 ↔
      (s.prices = none ∧ s.stakingApr = none ∧ s.stakedEth = none)) ∧
    ((apiPrices cfg s).status = 200 ↔
      ¬ (s.prices = none ∧ s.stakingApr = none ∧ s.stakedEth = none)) := by
  unfold apiPrices
  split <;> simp_all

theorem calculate30dClosingWindow_nil (e : ℤ) :
    calculate30dClosingWindow [] e = none := by
  unfold calculate30dClosingWindow
  simp

theorem calculate30dClosingWindow_some (l : List HistoryPoint) (e : ℤ)
    (w : ClosingWindow) (h : calculate30dClosingWindow l e = some w) :
    30 ≤ w.count ∧ w.daysSpan = 29 ∧ w.avg.isSome = true := by
  unfold calculate30dClosingWindow at h
  dsimp only at h
  split at h
  · exact absurd h (by simp)
  · split at h
    · exact absurd h (by simp)
    · next hlen =>
      simp only [Option.some.injEq] at h
      subst h
      refine ⟨by dsimp only; omega, ?_, rfl⟩
      show ((e - (e - 29 * msPerDay) : ℤ) : ℚ) / (msPerDay : ℚ) = 29
      have h2 : (e - (e - 29 * msPerDay) : ℤ) = 29 * msPerDay := by ring
      rw [h2]
      push_cast
      norm_num [msPerDay]

theorem logProjected_windowNone_clears (v1 : Option ℚ)
    (ethH ssvH : List HistoryPoint) (apr : Option StakingAprSample) (e now : ℤ)
    (prev : Option FeeProjection) (a pct : ℚ)
    (hEw : calculate30dClosingWindow ethH e = none)
    (hApr : apr.bind StakingAprSample.value = some a)
    (haPos : 0 < a)
    (hPct : normalizePercentDecimal v1 = some pct) :
    logProjectedNextMonthFee v1 ethH ssvH apr e now prev = none := by
  unfold logProjectedNextMonthFee
  rw [hEw, hApr, hPct]
  cases hsw : calculate30dClosingWindow ssvH e with
  | none => simp [haPos.not_le]
  | some sw =>
    obtain ⟨-, -, hAvgS⟩ := calculate30dClosingWindow_some ssvH e sw hsw
    obtain ⟨sAvg, hSAvg⟩ := Option.isSome_iff_exists.mp hAvgS
    simp [hSAvg, haPos.not_le]

theorem logProjected_gap_clears (v1 : Option ℚ) (ethH ssvH : List HistoryPoint)
    (apr : Option StakingAprSample) (e now : ℤ) (prev : Option FeeProjection)
    (ew sw : ClosingWindow) (a pct : ℚ)
    (hEw : calculate30dClosingWindow ethH e = some ew)
    (hSw : calculate30dClosingWindow ssvH e = some sw)
    (hApr : apr.bind StakingAprSample.value = some a)
    (haPos : 0 < a)
    (hPct : normalizePercentDecimal v1 = some pct)
    (hGap : ew.hasGap = true) :
    logProjectedNextMonthFee v1 ethH ssvH apr e now prev = none := by
  obtain ⟨-, -, hAvgE⟩ := calculate30dClosingWindow_some ethH e ew hEw
  obtain ⟨-, -, hAvgS⟩ := calculate30dClosingWindow_some ssvH e sw hSw
  obtain ⟨eAvg, hEAvg⟩ := Option.isSome_iff_exists.mp hAvgE
  obtain ⟨sAvg, hSAvg⟩ := Option.isSome_iff_exists.mp hAvgS
  unfold logProjectedNextMonthFee
  rw [hEw, hSw, hApr, hPct]
  simp [hEAvg, hSAvg, haPos.not_le, hGap]

theorem logProjected_aprNone_keeps (v1 : Option ℚ) (ethH ssvH : List HistoryPoint)
    (apr : Option StakingAprSample) (e now : ℤ) (prev : Option FeeProjection)
    (hApr : apr.bind StakingAprSample.value = none) :
    logProjectedNextMonthFee v1 ethH ssvH apr e now prev = prev := by
  unfold logProjectedNextMonthFee
  rw [hApr]
  simp

theorem logProjected_aprNonpos_keeps (v1 : Option ℚ) (ethH ssvH : List HistoryPoint)
    (apr : Option StakingAprSample) (e now : ℤ) (prev : Option FeeProjection)
    (a : ℚ) (hApr : apr.bind StakingAprSample.value = some a) (ha : a ≤ 0) :
    logProjectedNextMonthFee v1 ethH ssvH apr e now prev = prev := by
  unfold logProjectedNextMonthFee
  rw [hApr]
  simp [ha]

theorem logProjected_pctNone_keeps (v1 : Option ℚ) (ethH ssvH : List HistoryPoint)
    (apr : Option StakingAprSample) (e now : ℤ) (prev : Option FeeProjection)
    (hPct : normalizePercentDecimal v1 = none) :
    logProjectedNextMonthFee v1 ethH ssvH apr e now prev = prev := by
  unfold logProjectedNextMonthFee
  rw [hPct]
  simp

theorem runAdapters_proj (cfg : Config) (inp : CycleInput) (s : ServerState) :
    (runAdapters cfg inp s).1.nextMonthFeeProjection = s.nextMonthFeeProjection := by
  unfold runAdapters
  rw [(fetchNetworkFee_preserves _ _ _ _).2.2.2.1, (fetchTotalStakedEth_preserves _ _ _).2.2.2.1,
    (fetchEthStakingApr_preserves _ _ _ _).2.2.2.1, (fetchLatestPrices_preserves _ _ _ _).2.2.2.1]

theorem fetchAllData_proj (cfg : Config) (inp : CycleInput) (s : ServerState) :
    ∃ t : ServerState, t.nextMonthFeeProjection = s.nextMonthFeeProjection ∧
      (fetchAllData cfg inp s).nextMonthFeeProjection =
        logProjectedNextMonthFee cfg.networkFeePercentV1 t.ethHistory t.ssvHistory
          t.stakingApr inp.endDateUtc inp.now t.nextMonthFeeProjection := by
  refine ⟨stampLastUpdated (runAdapters cfg inp s).2 inp.now
    (seedHistoricalPricesIfNeeded cfg.cmcKeyConfigured inp.ethSeedResp
      inp.ssvSeedResp inp.now (runAdapters cfg inp s).1), ?_, rfl⟩
  rw [(stampLastUpdated_preserves _ _ _).2.2.2.2.1,
    (seed_preserves _ _ _ _ _).2.2.2.2.1, runAdapters_proj]

theorem logProjected_pct (v1 : Option ℚ) (ethH ssvH : List HistoryPoint)
    (apr : Option StakingAprSample) (e now : ℤ) (prev : Option FeeProjection)
    (hprev : ∀ q, prev = some q →
      normalizePercentDecimal v1 = some q.networkFeePercent) :
    ∀ p, logProjectedNextMonthFee v1 ethH ssvH apr e now prev = some p →
      normalizePercentDecimal v1 = some p.networkFeePercent := by
  intro p hp
  unfold logProjectedNextMonthFee at hp
  dsimp only at hp
  split at hp
  · exact hprev p hp
  · split at hp
    · next ew sw a pct h1 h2 h3 h4 =>
      split at hp
      · exact absurd hp (by simp)
      · split at hp
        · split at hp
          · exact hprev p hp
          · split at hp
            · simp only [Option.some.injEq] at hp
              subst hp
              exact h4
            · exact absurd hp (by simp)
        · exact hprev p hp
    · exact absurd hp (by simp)

theorem foldl_proj_pct (cfg : Config) (inps : List CycleInput) :
    ∀ s : ServerState,
      (∀ q, s.nextMonthFeeProjection = some q →
        normalizePercentDecimal cfg.networkFeePercentV1 = some q.networkFeePercent) →
      ∀ p, (inps.foldl (fun t inp => fetchAllData cfg inp t) s).nextMonthFeeProjection
          = some p →
        normalizePercentDecimal cfg.networkFeePercentV1 = some p.networkFeePercent := by
  induction inps with
  | nil => intro s hs; exact hs
  | cons i t ih =>
    intro s hs
    rw [List.foldl_cons]
    refine ih (fetchAllData cfg i s) ?_
    obtain ⟨u, hPrev, hEq⟩ := fetchAllData_proj cfg i s
    rw [hEq, hPrev]
    exact logProjected_pct _ _ _ _ _ _ _ hs

-- ## Claim theorems

/-- C1 counterexample: the raw fee value 100 does not decode via the
whole-percent rule with percentDecimal 1; the basis-points rule fires
first. -/
theorem claim1_counterexample :
    ¬ ((normalizeNetworkFeeDecimal 100).scale = some "percent-integer" ∧
       (normalizeNetworkFeeDecimal 100).percentDecimal = some 1) := by
  norm_num [normalizeNetworkFeeDecimal]

/-- C1 (amended): the raw fee value 100 decodes via the basis-points rule,
yielding scale basis-points and percentDecimal 0.01, because for every
positive raw value up to 100 the basis-points interpretation already lies
in (0,1) and is accepted before the whole-percent rule is reached. -/
theorem claim1_theorem :
    (normalizeNetworkFeeDecimal 100).percentDecimal = some (1/100) ∧
    (normalizeNetworkFeeDecimal 100).scale = some "basis-points" := by
  norm_num [normalizeNetworkFeeDecimal]

/-- C2: the fee decoder is a pure function of the raw integer, so two runs
on the same input agree, and whenever the returned percentDecimal is
non-null it lies in the half-open interval (0, 1]. -/
theorem claim2_theorem (raw : ℕ) :
    normalizeNetworkFeeDecimal raw = normalizeNetworkFeeDecimal raw ∧
    ∀ q : ℚ, (normalizeNetworkFeeDecimal raw).percentDecimal = some q →
      0 < q ∧ q ≤ 1 := by
  refine ⟨rfl, ?_⟩
  intro q hq
  unfold normalizeNetworkFeeDecimal at hq
  simp only [] at hq
  split at hq
  · next h =>
    simp only [Option.some.injEq] at hq
    subst hq
    exact ⟨h.2.2.1, le_of_lt h.2.2.2⟩
  · split at hq
    · next h =>
      simp only [Option.some.injEq] at hq
      subst hq
      have h1 : (0:ℚ) < (raw : ℚ) := by exact_mod_cast h.1
      have h2 : (raw : ℚ) ≤ 100 := by exact_mod_cast h.2
      constructor
      · positivity
      · rw [div_le_one (by norm_num)]
        exact h2
    · split at hq
      · next c heq =>
        have hc := List.find?_some heq
        simp only [decide_eq_true_eq] at hc
        simp only [Option.some.injEq] at hq
        subst hq
        exact ⟨hc.1, le_of_lt hc.2⟩
      · split at hq
        · next c heq =>
          have hc := List.find?_some heq
          simp only [decide_eq_true_eq] at hc
          simp only [Option.some.injEq] at hq
          subst hq
          constructor
          · have hpos : (0:ℚ) < c.2 := lt_of_lt_of_le one_pos hc.1
            positivity
          · rw [div_le_one (by norm_num)]
            exact hc.2
        · simp at hq

/-- C2 witness: the range bound instantiated at raw value 100, whose
decoded percent is 0.01. -/
theorem claim2_witness : (0:ℚ) < 1/100 ∧ (1:ℚ)/100 ≤ 1 :=
  (claim2_theorem 100).2 (1/100) (by norm_num [normalizeNetworkFeeDecimal])

/-- C3: evaluation of the seeder at the failing input. Seeding an empty
store from one bulk quote whose close time is epoch zero, forty days
before the write, leaves a stored point that is forty days old: the
post-append filter of the seeding loop only checks that the timestamp is
finite, so the length-preserving retention property of the spec fails
right after this write even though the inline comment of the source claims
the 30-day window is enforced there. -/
theorem claim3_theorem :
    (seedHistoricalPricesIfNeeded true (SeedResp.ok [ancientQuote]) (SeedResp.ok [])
        (40 * msPerDay) initialState).ethHistory =
      [{ timestamp := 0, priceUsd := 100 }] ∧
    ((seedHistoricalPricesIfNeeded true (SeedResp.ok [ancientQuote]) (SeedResp.ok [])
        (40 * msPerDay) initialState).ethHistory.filter
      (fun e => decide (40 * msPerDay - PRICE_HISTORY_WINDOW_MS ≤ e.timestamp))).length ≠
    (seedHistoricalPricesIfNeeded true (SeedResp.ok [ancientQuote]) (SeedResp.ok [])
        (40 * msPerDay) initialState).ethHistory.length := by
  have h : (seedHistoricalPricesIfNeeded true (SeedResp.ok [ancientQuote]) (SeedResp.ok [])
      (40 * msPerDay) initialState).ethHistory = [{ timestamp := 0, priceUsd := 100 }] := by
    simp [seedHistoricalPricesIfNeeded, seedCore, seedSymbolStep, initialState, ancientQuote,
      backfillCore]
  refine ⟨h, ?_⟩
  rw [h]
  norm_num [PRICE_HISTORY_WINDOW_MS, msPerDay]

/-- C4 counterexample: a run in which only the on-chain fee reader has ever
succeeded (its sample is cached) still answers 503, because the readiness
check of the handler does not consult the networkFee cache. -/
theorem claim4_counterexample :
    feeFetchOk cfgFeeOnly inpFeeOnly = true ∧
    (runCycles cfgFeeOnly [inpFeeOnly]).networkFee ≠ none ∧
    (apiPrices cfgFeeOnly (runCycles cfgFeeOnly [inpFeeOnly])).status = 503 := by
  have hrun : runCycles cfgFeeOnly [inpFeeOnly] =
      fetchAllData cfgFeeOnly inpFeeOnly initialState := rfl
  refine ⟨rfl, ?_, ?_⟩
  · rw [hrun]
    intro h
    rcases (fetchAllData_networkFee_none _ _ _).mp h with ⟨-, hok⟩
    simp [feeFetchOk, cfgFeeOnly, inpFeeOnly] at hok
  · rw [hrun]
    refine (apiPrices_status_iff _ _).1.mpr ⟨?_, ?_, ?_⟩
    · exact (fetchAllData_prices_none _ _ _).mpr ⟨rfl, by simp [pricesFetchOk, cfgFeeOnly]⟩
    · exact (fetchAllData_stakingApr_none _ _ _).mpr ⟨rfl, by simp [aprFetchOk, cfgFeeOnly]⟩
    · exact (fetchAllData_stakedEth_none _ _ _).mpr
        ⟨rfl, by simp [stakedFetchOk, inpFeeOnly]⟩

/-- C4 (amended): GET /api/prices responds 503 exactly when none of the
price, staking-yield and staked-ETH adapters has ever succeeded, and 200
exactly when at least one of those three has; a success of the on-chain
fee reader alone does not make the endpoint ready. -/
theorem claim4_theorem (cfg : Config) (inps : List CycleInput) :
    ((apiPrices cfg (runCycles cfg inps)).status = 503 ↔
      ∀ i ∈ inps, pricesFetchOk cfg i = false ∧ aprFetchOk cfg i = false ∧
        stakedFetchOk i = false) ∧
    ((apiPrices cfg (runCycles cfg inps)).status = 200 ↔
      ∃ i ∈ inps, pricesFetchOk cfg i = true ∨ aprFetchOk cfg i = true ∨
        stakedFetchOk i = true) := by
  have hp := (foldl_prices_none cfg inps initialState).trans (and_iff_right rfl)
  have ha := (foldl_stakingApr_none cfg inps initialState).trans (and_iff_right rfl)
  have hs := (foldl_stakedEth_none cfg inps initialState).trans (and_iff_right rfl)
  constructor
  · rw [(apiPrices_status_iff cfg (runCycles cfg inps)).1]
    unfold runCycles
    rw [hp, ha, hs]
    constructor
    · rintro ⟨h1, h2, h3⟩ i hi
      exact ⟨h1 i hi, h2 i hi, h3 i hi⟩
    · intro h
      exact ⟨fun i hi => (h i hi).1, fun i hi => (h i hi).2.1, fun i hi => (h i hi).2.2⟩
  · rw [(apiPrices_status_iff cfg (runCycles cfg inps)).2]
    unfold runCycles
    rw [hp, ha, hs]
    constructor
    · intro h
      by_contra hno
      push_neg at hno
      apply h
      refine ⟨?_, ?_, ?_⟩ <;> intro i hi
      · exact Bool.eq_false_iff.mpr (hno i hi).1
      · exact Bool.eq_false_iff.mpr (hno i hi).2.1
      · exact Bool.eq_false_iff.mpr (hno i hi).2.2
    · rintro ⟨i, hi, hdisj⟩ ⟨h1, h2, h3⟩
      rcases hdisj with hb | hb | hb
      · exact absurd (h1 i hi) (by simp [hb])
      · exact absurd (h2 i hi) (by simp [hb])
      · exact absurd (h3 i hi) (by simp [hb])

/-- C4 witness: with no cycle run at all, the endpoint reports 503. -/
theorem claim4_witness :
    (apiPrices cfgFeeOnly (runCycles cfgFeeOnly [])).status = 503 :=
  (claim4_theorem cfgFeeOnly []).1.mpr (by simp)

/-- Shared lemma for the missing-credential scenario: when the price
credential is not configured, the staking fetch of the cycle succeeds and
no prices were ever cached, the endpoint answers 200 with prices null, a
populated staking sample, and a MISSING_API_KEY entry in the prices error
slot. -/
theorem missingKey_response (cfg : Config) (inp : CycleInput) (s : ServerState)
    (hk : cfg.cmcKeyConfigured = false) (ha : aprFetchOk cfg inp = true)
    (hp : s.prices = none) :
    (apiPrices cfg (fetchAllData cfg inp s)).status = 200 ∧
    (apiPrices cfg (fetchAllData cfg inp s)).prices = none ∧
    (apiPrices cfg (fetchAllData cfg inp s)).stakingApr.isSome = true ∧
    ∃ er, (apiPrices cfg (fetchAllData cfg inp s)).lastFetchError.prices = some er ∧
      er.code = "MISSING_API_KEY" := by
  have hPrices : (fetchAllData cfg inp s).prices = none := by
    refine (fetchAllData_prices_none cfg inp s).mpr ⟨hp, ?_⟩
    simp [pricesFetchOk, hk]
  have hApr : (fetchAllData cfg inp s).stakingApr.isSome = true := by
    rw [fetchAllData_stakingApr_eq]
    refine fetchEthStakingApr_ok _ _ _ _ ?_
    simpa [aprFetchOk] using ha
  have hready : ¬ ((fetchAllData cfg inp s).prices = none ∧
      (fetchAllData cfg inp s).stakingApr = none ∧
      (fetchAllData cfg inp s).stakedEth = none) := by
    rintro ⟨-, hnone, -⟩
    rw [hnone] at hApr
    exact absurd hApr (by simp)
  have hresp := apiPrices_of_ready cfg (fetchAllData cfg inp s) hready
  have hErr : (fetchAllData cfg inp s).lastFetchError.prices =
      dedupSetErr s.lastFetchError.prices "MISSING_API_KEY"
        "CoinMarketCap API key is not configured." inp.now := by
    rw [fetchAllData_errPrices_eq, hk]
    exact fetchLatestPrices_missingKey inp.pricesResp inp.now s
  rw [hresp]
  refine ⟨rfl, hPrices, hApr, ?_⟩
  simp only [hErr]
  exact dedupSetErr_code s.lastFetchError.prices _ _ inp.now

/-- C5 counterexample: in the missing-credential scenario the recorded
error code is MISSING_API_KEY, not MISSING_CREDENTIAL, so the claim as
stated fails even though every other part of it holds at this input. -/
theorem claim5_counterexample :
    (apiPrices cfgNoPriceKey (runCycles cfgNoPriceKey [inpAprOnly])).status = 200 ∧
    (apiPrices cfgNoPriceKey (runCycles cfgNoPriceKey [inpAprOnly])).prices = none ∧
    (apiPrices cfgNoPriceKey (runCycles cfgNoPriceKey [inpAprOnly])).stakingApr.isSome
      = true ∧
    ¬ (∃ er, (apiPrices cfgNoPriceKey
          (runCycles cfgNoPriceKey [inpAprOnly])).lastFetchError.prices = some er ∧
        er.code = "MISSING_CREDENTIAL") := by
  have hrun : runCycles cfgNoPriceKey [inpAprOnly] =
      fetchAllData cfgNoPriceKey inpAprOnly initialState := rfl
  have h := missingKey_response cfgNoPriceKey inpAprOnly initialState rfl
    (by simp [aprFetchOk, cfgNoPriceKey, inpAprOnly]) rfl
  rw [hrun]
  refine ⟨h.1, h.2.1, h.2.2.1, ?_⟩
  rintro ⟨er, her, hcode⟩
  obtain ⟨er2, her2, hcode2⟩ := h.2.2.2
  rw [her] at her2
  cases her2
  rw [hcode] at hcode2
  exact absurd hcode2 (by decide)

/-- C5 (amended): if the price credential is missing but the staking-yield
adapter succeeds in a cycle and no prices were ever cached, GET /api/prices
returns 200 with prices null and stakingApr populated, and
lastFetchError.prices holds an entry whose code is MISSING_API_KEY (the
code the source writes; the spec calls this case MISSING_CREDENTIAL). -/
theorem claim5_theorem (cfg : Config) (inp : CycleInput) (s : ServerState)
    (hk : cfg.cmcKeyConfigured = false) (ha : aprFetchOk cfg inp = true)
    (hp : s.prices = none) :
    (apiPrices cfg (fetchAllData cfg inp s)).status = 200 ∧
    (apiPrices cfg (fetchAllData cfg inp s)).prices = none ∧
    (apiPrices cfg (fetchAllData cfg inp s)).stakingApr.isSome = true ∧
    ∃ er, (apiPrices cfg (fetchAllData cfg inp s)).lastFetchError.prices = some er ∧
      er.code = "MISSING_API_KEY" :=
  missingKey_response cfg inp s hk ha hp

/-- C5 witness: the amended statement at the concrete missing-credential
cycle. -/
theorem claim5_witness :
    (apiPrices cfgNoPriceKey
      (fetchAllData cfgNoPriceKey inpAprOnly initialState)).status = 200 :=
  (claim5_theorem cfgNoPriceKey inpAprOnly initialState rfl
    (by simp [aprFetchOk, cfgNoPriceKey, inpAprOnly]) rfl).1

/-- C6 counterexample: a cycle in which the staking APR input is not a
positive finite number (it has never been fetched) while a projection from
an earlier cycle is stored does not clear the stored projection: the
early return of the projection routine leaves the stale value in place,
where the claim demands absence. -/
theorem claim6_counterexample :
    staleNoAprState.stakingApr = none ∧
    (fetchAllData cfgBare inpAllFail staleNoAprState).nextMonthFeeProjection =
      some staleProjection := by
  refine ⟨rfl, ?_⟩
  simp [fetchAllData, runAdapters, applyProjection, stampLastUpdated,
    fetchLatestPrices, fetchEthStakingApr, fetchTotalStakedEth, fetchNetworkFee,
    seedHistoricalPricesIfNeeded, seedCore, backfillCore, logProjectedNextMonthFee,
    calculate30dClosingWindow, cfgBare, inpAllFail, staleNoAprState, initialState,
    dedupSetErr]

/-- C6 (amended): with a valid staking APR and fee percent, the projection
slot is overwritten every cycle on the window paths: it is cleared when
the ETH calendar window is not computable (for example fewer than 30
points, where the optional-chained average is undefined rather than null
and therefore falls through the first guard to the falsy windowOk check),
and cleared when both windows are computable but one has a gap; however,
when the staking APR input is absent or not positive, or the fee-percent
override does not normalize, the routine returns early and the previously
stored projection, possibly stale, is left unchanged. -/
theorem claim6_theorem (v1 : Option ℚ) (ethH ssvH : List HistoryPoint)
    (apr : Option StakingAprSample) (e now : ℤ) (prev : Option FeeProjection)
    (ew sw : ClosingWindow) (a pct : ℚ) :
    (calculate30dClosingWindow ethH e = none →
      apr.bind StakingAprSample.value = some a → 0 < a →
      normalizePercentDecimal v1 = some pct →
      logProjectedNextMonthFee v1 ethH ssvH apr e now prev = none) ∧
    (calculate30dClosingWindow ethH e = some ew →
      calculate30dClosingWindow ssvH e = some sw →
      apr.bind StakingAprSample.value = some a → 0 < a →
      normalizePercentDecimal v1 = some pct → ew.hasGap = true →
      logProjectedNextMonthFee v1 ethH ssvH apr e now prev = none) ∧
    (apr.bind StakingAprSample.value = none →
      logProjectedNextMonthFee v1 ethH ssvH apr e now prev = prev) ∧
    (apr.bind StakingAprSample.value = some a → a ≤ 0 →
      logProjectedNextMonthFee v1 ethH ssvH apr e now prev = prev) ∧
    (normalizePercentDecimal v1 = none →
      logProjectedNextMonthFee v1 ethH ssvH apr e now prev = prev) :=
  ⟨fun h1 h2 h3 h4 =>
     logProjected_windowNone_clears v1 ethH ssvH apr e now prev a pct h1 h2 h3 h4,
   fun h1 h2 h3 h4 h5 h6 =>
     logProjected_gap_clears v1 ethH ssvH apr e now prev ew sw a pct h1 h2 h3 h4 h5 h6,
   logProjected_aprNone_keeps v1 ethH ssvH apr e now prev,
   fun h1 h2 => logProjected_aprNonpos_keeps v1 ethH ssvH apr e now prev a h1 h2,
   logProjected_pctNone_keeps v1 ethH ssvH apr e now prev⟩

/-- C6 witness: the stale-keeping branch applied with an absent staking
APR and a concrete stored projection, and the clearing branch applied at
an empty history with valid inputs. -/
theorem claim6_witness :
    logProjectedNextMonthFee (some (1/100)) [] [] none 0 0
      (some staleProjection) = some staleProjection ∧
    logProjectedNextMonthFee (some (1/100)) [] []
      (some { value := some (1/25), sourceField := some "avgapr31d" }) 0 0
      (some staleProjection) = none :=
  ⟨(claim6_theorem (some (1/100)) [] [] none 0 0 (some staleProjection)
      { avg := none, count := 0, startMs := 0, endMs := 0, daysSpan := 0, hasGap := false }
      { avg := none, count := 0, startMs := 0, endMs := 0, daysSpan := 0, hasGap := false }
      0 0).2.2.1 rfl,
   (claim6_theorem (some (1/100)) [] []
      (some { value := some (1/25), sourceField := some "avgapr31d" }) 0 0
      (some staleProjection)
      { avg := none, count := 0, startMs := 0, endMs := 0, daysSpan := 0, hasGap := false }
      { avg := none, count := 0, startMs := 0, endMs := 0, daysSpan := 0, hasGap := false }
      (1/25) (1/100)).1 (by simp [calculate30dClosingWindow]) rfl (by norm_num)
      (by norm_num [normalizePercentDecimal])⟩

/-- C7: partial-success merge. In any cycle, an adapter that did not
succeed leaves its cached field exactly as it was (and, the four fields
being written only by their own adapters, no other adapter failure can
clear it); and over any run from the initial state, a cached field is
still null exactly when its adapter has never succeeded. -/
theorem claim7_theorem (cfg : Config) (inp : CycleInput) (s : ServerState)
    (inps : List CycleInput) :
    (pricesFetchOk cfg inp = false → (fetchAllData cfg inp s).prices = s.prices) ∧
    (aprFetchOk cfg inp = false →
      (fetchAllData cfg inp s).stakingApr = s.stakingApr) ∧
    (stakedFetchOk inp = false → (fetchAllData cfg inp s).stakedEth = s.stakedEth) ∧
    (feeFetchOk cfg inp = false →
      (fetchAllData cfg inp s).networkFee = s.networkFee) ∧
    ((runCycles cfg inps).prices = none ↔ ∀ i ∈ inps, pricesFetchOk cfg i = false) ∧
    ((runCycles cfg inps).stakingApr = none ↔ ∀ i ∈ inps, aprFetchOk cfg i = false) ∧
    ((runCycles cfg inps).stakedEth = none ↔ ∀ i ∈ inps, stakedFetchOk i = false) ∧
    ((runCycles cfg inps).networkFee = none ↔ ∀ i ∈ inps, feeFetchOk cfg i = false) :=
  ⟨fetchAllData_prices_unchanged cfg inp s,
   fetchAllData_stakingApr_unchanged cfg inp s,
   fetchAllData_stakedEth_unchanged cfg inp s,
   fetchAllData_networkFee_unchanged cfg inp s,
   (foldl_prices_none cfg inps initialState).trans (and_iff_right rfl),
   (foldl_stakingApr_none cfg inps initialState).trans (and_iff_right rfl),
   (foldl_stakedEth_none cfg inps initialState).trans (and_iff_right rfl),
   (foldl_networkFee_none cfg inps initialState).trans (and_iff_right rfl)⟩

/-- C7 witness: a cycle in which every adapter fails leaves the initial
caches unchanged, and the empty run leaves every field null. -/
theorem claim7_witness :
    (fetchAllData cfgBare inpAllFail initialState).prices = initialState.prices ∧
    (fetchAllData cfgBare inpAllFail initialState).networkFee = initialState.networkFee ∧
    (runCycles cfgBare []).prices = none := by
  refine ⟨(claim7_theorem cfgBare inpAllFail initialState []).1
      (by simp [pricesFetchOk, cfgBare]),
    (claim7_theorem cfgBare inpAllFail initialState []).2.2.2.1
      (by simp [feeFetchOk, cfgBare]),
    (claim7_theorem cfgBare inpAllFail initialState []).2.2.2.2.1.mpr (by simp)⟩

/-- C8 counterexample: when the bulk endpoint throws a plan-restriction
error (code 1006) and a positive live price is cached, the seeder marks
seeding complete but synthesizes nothing: the history stays empty instead
of receiving thirty identical daily points. -/
theorem claim8_counterexample :
    unseededState.prices = some livePrices ∧
    priceUsdOf livePrices "ETH" = some 3000 ∧
    (seedHistoricalPricesIfNeeded true SeedResp.planRestricted SeedResp.planRestricted
        0 unseededState).hasSeededHistory = true ∧
    (seedHistoricalPricesIfNeeded true SeedResp.planRestricted SeedResp.planRestricted
        0 unseededState).ethHistory = [] := by
  refine ⟨rfl, rfl, ?_, ?_⟩ <;>
    simp [seedHistoricalPricesIfNeeded, seedCore, unseededState, initialState]

/-- C8 (amended): the synthetic fallback runs only when the bulk endpoint
responded but yielded no quotes for any asset: then each asset with a
positive cached live price gets thirty identical daily points at that
price and seeding is marked complete. A plan-restriction throw marks
seeding complete without synthesizing anything, and any other throw leaves
seeding incomplete so it re-runs next cycle. -/
theorem claim8_theorem :
    (∀ (s : ServerState) (now : ℤ) (sr : SeedResp),
      s.hasSeededHistory = false →
      (s.ethHistory.length < 10 ∨ s.ssvHistory.length < 10) →
      seedHistoricalPricesIfNeeded true SeedResp.planRestricted sr now s =
        { s with hasSeededHistory := true }) ∧
    (∀ (s : ServerState) (now : ℤ) (sr : SeedResp),
      s.hasSeededHistory = false →
      (s.ethHistory.length < 10 ∨ s.ssvHistory.length < 10) →
      seedHistoricalPricesIfNeeded true SeedResp.failed sr now s = s) ∧
    (∀ (s : ServerState) (now : ℤ) (pm : PricesMap) (pe ps : ℚ),
      s.hasSeededHistory = false →
      (s.ethHistory.length < 10 ∨ s.ssvHistory.length < 10) →
      s.prices = some pm →
      priceUsdOf pm "ETH" = some pe → 0 < pe →
      priceUsdOf pm "SSV" = some ps → 0 < ps →
      seedHistoricalPricesIfNeeded true (SeedResp.ok []) (SeedResp.ok []) now s =
        { s with ethHistory := (backfillEntries now pe),
                 ssvHistory := (backfillEntries now ps), hasSeededHistory := true }) ∧
    (∀ (now : ℤ) (p : ℚ), (backfillEntries now p).length = 30 ∧
      ∀ pt ∈ backfillEntries now p, pt.priceUsd = p) := by
  refine ⟨?_, ?_, ?_, ?_⟩
  · intro s now sr h0 h1
    unfold seedHistoricalPricesIfNeeded seedCore
    rw [h0]
    simp only [Bool.false_eq_true, if_false, if_neg (not_not_intro h1)]
    simp
  · intro s now sr h0 h1
    unfold seedHistoricalPricesIfNeeded seedCore
    rw [h0]
    simp only [Bool.false_eq_true, if_false, if_neg (not_not_intro h1)]
    rw [← h0]
    simp
  · intro s now pm pe ps h0 h1 hpm hpe hpepos hps hpspos
    unfold seedHistoricalPricesIfNeeded seedCore backfillCore
    rw [h0, hpm]
    simp only [Bool.false_eq_true, if_false, if_neg (not_not_intro h1),
      List.isEmpty_nil, if_true, Option.some_bind, hpe, hps,
      if_pos hpepos, if_pos hpspos]
    simp [hpm]
  · intro now p
    constructor
    · simp only [backfillEntries, List.length_map, List.length_range]
    · intro pt hpt
      simp only [backfillEntries, List.mem_map] at hpt
      obtain ⟨k, -, rfl⟩ := hpt
      rfl

/-- C8 witness: the fallback branch at the concrete unseeded state with
live prices, and its thirty identical points. -/
theorem claim8_witness :
    seedHistoricalPricesIfNeeded true (SeedResp.ok []) (SeedResp.ok []) 0 unseededState =
      { unseededState with ethHistory := (backfillEntries 0 3000),
                           ssvHistory := (backfillEntries 0 40),
                           hasSeededHistory := true } ∧
    (backfillEntries 0 3000).length = 30 :=
  ⟨(claim8_theorem).2.2.1 unseededState 0 livePrices 3000 40 rfl (by simp [unseededState,
      initialState]) rfl
      rfl (by norm_num) rfl (by norm_num),
   ((claim8_theorem).2.2.2 0 3000).1⟩

/-- C9 counterexample: startPolling wires the interval callback directly to
fetchAllData with no single-flight guard, so a tick that fires while the
first cycle is still in flight starts a second concurrent cycle instead of
being dropped: two cycles are then in flight at once. -/
theorem claim9_counterexample :
    (intervalTick pollLoopStart).inFlight = 2 ∧
    ¬ ((intervalTick pollLoopStart).inFlight ≤ 1) := by
  constructor <;> decide

/-- C9 (amended): every timer tick unconditionally starts one more
fetchAllData invocation; nothing in the polling loop drops a tick while a
cycle is in flight. -/
theorem claim9_theorem (s : PollLoopState) :
    (intervalTick s).inFlight = s.inFlight + 1 := rfl

/-- C10: whenever the configured override is a finite number it is what
/api/prices serves as networkFeePercent; when it is not finite the decoded
on-chain percent is served instead; the recomputed projection never
depends on the cached on-chain fee sample; and every projection ever
stored in a run carries a fee percent derived from the override via
normalizePercentDecimal. -/
theorem claim10_theorem (cfg : Config) (s : ServerState) (inp : CycleInput)
    (nf : Option NetworkFeeSample) (v : ℚ) (inps : List CycleInput) :
    (cfg.networkFeePercentV1 = some v →
      ¬ (s.prices = none ∧ s.stakingApr = none ∧ s.stakedEth = none) →
      (apiPrices cfg s).networkFeePercent = some v) ∧
    (cfg.networkFeePercentV1 = none →
      ¬ (s.prices = none ∧ s.stakingApr = none ∧ s.stakedEth = none) →
      (apiPrices cfg s).networkFeePercent =
        s.networkFee.bind NetworkFeeSample.percentDecimal) ∧
    ((fetchAllData cfg inp { s with networkFee := nf }).nextMonthFeeProjection =
      (fetchAllData cfg inp s).nextMonthFeeProjection) ∧
    (∀ p, (runCycles cfg inps).nextMonthFeeProjection = some p →
      normalizePercentDecimal cfg.networkFeePercentV1 = some p.networkFeePercent) := by
  refine ⟨?_, ?_, fetchAllData_networkFee_blind cfg inp s nf, ?_⟩
  · intro hv hready
    rw [apiPrices_of_ready cfg s hready]
    simp [hv]
  · intro hv hready
    rw [apiPrices_of_ready cfg s hready]
    simp [hv]
  · exact foldl_proj_pct cfg inps initialState (by simp [initialState])

/-- C10 witness: the override is served at a ready state, and the empty
run stores no projection violating the invariant. -/
theorem claim10_witness :
    (apiPrices cfgNoPriceKey staleProjState).networkFeePercent = some (1/100) :=
  (claim10_theorem cfgNoPriceKey staleProjState inpAllFail none (1/100) []).1 rfl
    (by simp [staleProjState, initialState])
